import Mathlib

/-!
# Formal model of the elara-pa prior-authorization pipeline

A shallow embedding of the parsing and evaluation modules of the
`elara-pa` repository, together with theorems settling the frozen claims
about its specification.  Python text is modelled as `List Char`; the
concrete regular expressions of the source are translated into explicit
scanning functions, each documented with the regex it implements.
Machine floats (`confidence` scores) are modelled as rationals: every
confidence arithmetic in the source (`min`, `+ 0.2`, `* 0.6`, division
of small integers) is exact at the values the code uses, so no rounding
behaviour is lost.
-/

namespace ElaraPA

/-- Decidable equality for `Except` results (used for the modelled
Python exceptions). -/
instance {ε α : Type} [DecidableEq ε] [DecidableEq α] : DecidableEq (Except ε α) :=
  fun a b =>
    match a, b with
    | .error e, .error e' =>
      if h : e = e' then .isTrue (by rw [h]) else .isFalse (by simp [h])
    | .ok x, .ok y =>
      if h : x = y then .isTrue (by rw [h]) else .isFalse (by simp [h])
    | .error _, .ok _ => .isFalse (by simp)
    | .ok _, .error _ => .isFalse (by simp)

/-! ## The source's float constants

Every float literal of the modelled code is an exact decimal, and every
arithmetic step performed on them (`min`, `+ 0.2`, `* 0.6`, division of
small integers) is exact in binary-free rational arithmetic, so the
constants are modelled as rationals.  They are written as explicit
lowest-terms `Rat` constructors (rather than `OfScientific` literals)
so that kernel evaluation can reduce comparisons on them; the `q…_eq`
lemmas below the definitions restate each one as its decimal literal. -/

/-- `0.2` (the classifier's confidence boost). -/
def q02 : ℚ := ⟨1, 5, by norm_num, by norm_num⟩
/-- `0.3`. -/
def q03 : ℚ := ⟨3, 10, by norm_num, by norm_num⟩
/-- `0.5`. -/
def q05 : ℚ := ⟨1, 2, by norm_num, by norm_num⟩
/-- `0.6` (the hint-fallback confidence multiplier). -/
def q06 : ℚ := ⟨3, 5, by norm_num, by norm_num⟩
/-- `0.7`. -/
def q07 : ℚ := ⟨7, 10, by norm_num, by norm_num⟩
/-- `0.8`. -/
def q08 : ℚ := ⟨4, 5, by norm_num, by norm_num⟩
/-- `0.85` (the enhanced parser's extraction confidence). -/
def q085 : ℚ := ⟨17, 20, by norm_num, by norm_num⟩
/-- `0.9`. -/
def q09 : ℚ := ⟨9, 10, by norm_num, by norm_num⟩
/-- `0.95` (the classifier's confidence cap). -/
def q095 : ℚ := ⟨19, 20, by norm_num, by norm_num⟩

/-! ## Python-style string primitives -/

abbrev Chars := List Char

/-- Python `str.lower()` on ASCII text (all repository text is ASCII). -/
def lowerChars (s : Chars) : Chars := s.map Char.toLower

/-- Python's regex `\s` class: `[ \t\n\r\f\v]`. -/
def isSpaceChar (c : Char) : Bool :=
  c == ' ' || c == '\t' || c == '\n' || c == '\r' || c == '\x0b' || c == '\x0c'

/-- Python's regex `\w` class on ASCII text: `[A-Za-z0-9_]`. -/
def isWordChar (c : Char) : Bool := c.isAlphanum || c == '_'

/-- ASCII uppercase letter (`[A-Z]`). -/
def isUpperAlpha (c : Char) : Bool := 'A' ≤ c && c ≤ 'Z'

/-- `needle` occurs in `hay` starting at index `i`. -/
def occursAt (hay : Chars) (i : Nat) (needle : Chars) : Bool :=
  needle.isPrefixOf (hay.drop i)

/-- Python substring containment `needle in hay`. -/
def containsSub (needle hay : Chars) : Bool :=
  (List.range (hay.length + 1)).any fun i => occursAt hay i needle

/-- Python `str.strip()`: remove leading and trailing whitespace. -/
def pyStrip (s : Chars) : Chars :=
  ((s.dropWhile isSpaceChar).reverse.dropWhile isSpaceChar).reverse

/-- Python `str.isupper()`: at least one cased character and no lowercase
cased character (on ASCII, cased = alphabetic). -/
def pyIsUpper (s : Chars) : Bool :=
  s.any Char.isAlpha && s.all fun c => !c.isAlpha || c.isUpper

/-- Python `str.split('\n')`. -/
def splitLines (s : Chars) : List Chars :=
  s.splitOn '\n'

/-- Python `'\n'.join`. -/
def joinLines (ls : List Chars) : Chars :=
  (ls.intersperse ['\n']).flatten

/-- Python `repr` of a list of strings, e.g. `['12345', '67890']`
(used by the source's f-strings that interpolate code lists). -/
def pyReprStrList (l : List String) : String :=
  "[" ++ String.intercalate ", " (l.map fun s => "'" ++ s ++ "'") ++ "]"

/-- Python `f"{x}"` for an `Optional[str]`: `None` renders as `"None"`. -/
def pyFormatOptStr : Option String → String
  | none => "None"
  | some s => s

/-- Python `f"{x}"` for an `Optional[int]`. -/
def pyFormatOptInt : Option Int → String
  | none => "None"
  | some n => toString n

/-- Python truthiness of an optional string (`None` and `""` are falsy). -/
def pyTruthyStr : Option String → Bool
  | none => false
  | some s => s ≠ ""

/-- Python truthiness of an optional number (`None` and `0` are falsy). -/
def pyTruthyRat : Option ℚ → Bool
  | none => false
  | some q => q ≠ 0

/-! ## Token-extraction regexes

The code-extraction regexes of the source (`uhc_rules.py`,
`uhc_rules_enhanced.py`, `intelligent_chunker.py`) are all of the form
`\b(token)\b` for a fixed-shape token whose characters are word
characters.  For such patterns two matches can never overlap (every
character inside a match is a word character, so no interior position
has the required preceding word boundary); hence `re.findall` returns
exactly the positions at which the token shape occurs with word
boundaries on both sides, in left-to-right order.  Each `...At` function
below decides one such match position; the `findall...` function
collects them. -/

/-- One match of `\b(\d{5})\b` starting at index `i` of `s`. -/
def fiveDigitAt (s : Chars) (i : Nat) : Bool :=
  let w := (s.drop i).take 5
  w.length == 5 && w.all Char.isDigit &&
  (i == 0 || !isWordChar (s.getD (i - 1) ' ')) &&
  (i + 5 == s.length || !isWordChar (s.getD (i + 5) ' '))

/-- `re.findall(r'\b(\d{5})\b', s)` — the CPT-code pattern of
`uhc_rules.py` line 42, `uhc_rules_enhanced.py` line 30 and
`intelligent_chunker.py` line 222. -/
def findallFiveDigit (s : Chars) : List String :=
  ((List.range s.length).filter (fiveDigitAt s)).map fun i =>
    String.mk ((s.drop i).take 5)

/-- One match of `\b([A-V]\d{4})\b` starting at index `i` of `s`. -/
def hcpcsAt (s : Chars) (i : Nat) : Bool :=
  let w := (s.drop i).take 5
  w.length == 5 &&
  (match w with
   | c :: ds => ('A' ≤ c && c ≤ 'V') && ds.all Char.isDigit
   | [] => false) &&
  (i == 0 || !isWordChar (s.getD (i - 1) ' ')) &&
  (i + 5 == s.length || !isWordChar (s.getD (i + 5) ' '))

/-- `re.findall(r'\b([A-V]\d{4})\b', s)` — the HCPCS pattern of
`uhc_rules.py` line 44, `uhc_rules_enhanced.py` line 32 and
`intelligent_chunker.py` line 223. -/
def findallHcpcs (s : Chars) : List String :=
  ((List.range s.length).filter (hcpcsAt s)).map fun i =>
    String.mk ((s.drop i).take 5)

/-- One match of `\b([A-Z]{2})\b` starting at index `i` of `s`. -/
def caps2At (s : Chars) (i : Nat) : Bool :=
  let w := (s.drop i).take 2
  w.length == 2 && w.all isUpperAlpha &&
  (i == 0 || !isWordChar (s.getD (i - 1) ' ')) &&
  (i + 2 == s.length || !isWordChar (s.getD (i + 2) ' '))

/-- `re.findall(r'\b([A-Z]{2})\b', s)` — the two-letter token pattern
applied to a captured exception clause in
`uhc_rules_enhanced.py` lines 204 and 232. -/
def findallCaps2 (s : Chars) : List String :=
  ((List.range s.length).filter (caps2At s)).map fun i =>
    String.mk ((s.drop i).take 2)

/-- The 51 codes of the `state_pattern` alternation in `uhc_rules.py`
line 46 and `uhc_rules_enhanced.py` line 34 (50 states + DC). -/
def statePattern51 : List String :=
  ["AL", "AK", "AZ", "AR", "CA", "CO", "CT", "DE", "FL", "GA",
   "HI", "ID", "IL", "IN", "IA", "KS", "KY", "LA", "ME", "MD",
   "MA", "MI", "MN", "MS", "MO", "MT", "NE", "NV", "NH", "NJ",
   "NM", "NY", "NC", "ND", "OH", "OK", "OR", "PA", "RI", "SC",
   "SD", "TN", "TX", "UT", "VT", "VA", "WA", "WV", "WI", "WY", "DC"]

/-- The 56 codes of the state alternation in `intelligent_chunker.py`
lines 74 and 229 (50 states + DC + PR, VI, GU, AS, MP). -/
def statePattern56 : List String :=
  statePattern51 ++ ["PR", "VI", "GU", "AS", "MP"]

/-- `re.findall(r'\b(AL|AK|…|MP)\b', s)` (no flags): an alternation of
fixed uppercase two-letter codes with word boundaries — equivalently,
the `\b([A-Z]{2})\b` matches whose text is one of the listed codes
(`intelligent_chunker.py` line 229). -/
def findallStateCodes (codes : List String) (s : Chars) : List String :=
  (findallCaps2 s).filter (· ∈ codes)

/-- `re.search(r'\b(AL|…|MP)\b', s, re.IGNORECASE)`: some word-bounded
two-letter alphabetic token equals a listed code case-insensitively
(`intelligent_chunker.py` line 74, evaluated by the classifier). -/
def hasStateTokenCI (codes : List String) (s : Chars) : Bool :=
  (List.range s.length).any fun i =>
    let w := (s.drop i).take 2
    w.length == 2 && w.all Char.isAlpha &&
    (i == 0 || !isWordChar (s.getD (i - 1) ' ')) &&
    (i + 2 == s.length || !isWordChar (s.getD (i + 2) ' ')) &&
    (String.mk (w.map Char.toUpper) ∈ codes)

/-- Length of the `\b([A-Z]\d{2}(?:\.\d{1,4})?)\b` match starting at
index `i` of `s`, if any.  The regex backtracks on the optional decimal
part: the longest decimal suffix (4 digits down to 1) whose following
position is a word boundary wins, else the bare three-character form is
tried against the boundary. -/
def icdLenAt (s : Chars) (i : Nat) : Option Nat :=
  let tail := s.drop i
  let head3 := tail.take 3
  let headOk :=
    head3.length == 3 &&
    (match head3 with
     | c :: ds => isUpperAlpha c && ds.all Char.isDigit
     | [] => false) &&
    (i == 0 || !isWordChar (s.getD (i - 1) ' '))
  if !headOk then none
  else
    let boundaryAfter := fun (n : Nat) =>
      i + n == s.length || !isWordChar (s.getD (i + n) ' ')
    let decPart := fun (k : Nat) =>
      (tail.getD 3 ' ' == '.') &&
      ((tail.drop 4).take k).length == k &&
      ((tail.drop 4).take k).all Char.isDigit &&
      boundaryAfter (4 + k)
    if decPart 4 then some 8
    else if decPart 3 then some 7
    else if decPart 2 then some 6
    else if decPart 1 then some 5
    else if boundaryAfter 3 then some 3
    else none

/-- `re.findall(r'\b([A-Z]\d{2}(?:\.\d{1,4})?)\b', s)` — the ICD-10
pattern of `uhc_rules_enhanced.py` line 33.  Matches cannot overlap: a
later match must start at an uppercase letter preceded by a non-word
character, and every character of a match except a `.` is a word
character, while the character after a `.` is a digit. -/
def findallIcd (s : Chars) : List String :=
  ((List.range s.length).filterMap fun i =>
    (icdLenAt s i).map fun n => (i, n)).map fun p =>
      String.mk ((s.drop p.1).take p.2)

/-- Five consecutive digits anywhere (`re.search(r'\d{5}', line)`,
no word boundaries — `uhc_rules_enhanced.py` line 349). -/
def hasFiveDigitsAnywhere (s : Chars) : Bool :=
  (List.range s.length).any fun i =>
    let w := (s.drop i).take 5
    w.length == 5 && w.all Char.isDigit

/-! ## Data model (`models/entities.py`, `src/models_enhanced.py`)

`extraction_timestamp` (a wall-clock default never read by any logic
modelled here) is omitted.  The free-form `Optional[Dict]` fields
`age_restrictions` / `quantity_limits` of the base `Rule` are opaque
pass-through blobs (only copied, never inspected, by the code modelled
here) and are represented as `Option String`. -/

/-- `AuthRequirement` (`models/entities.py` lines 10-15). -/
inductive AuthRequirement where
  | REQUIRED
  | NOT_REQUIRED
  | CONDITIONAL
  | NOTIFICATION_ONLY
deriving DecidableEq, Repr

/-- The `.value` string of each `AuthRequirement` member. -/
def AuthRequirement.value : AuthRequirement → String
  | .REQUIRED => "required"
  | .NOT_REQUIRED => "not_required"
  | .CONDITIONAL => "conditional"
  | .NOTIFICATION_ONLY => "notification_only"

/-- `RuleType` (`models/entities.py` lines 18-23). -/
inductive RuleType where
  | CPT_BASED
  | ICD_BASED
  | COMBINATION
  | NARRATIVE
deriving DecidableEq, Repr

/-- `Rule` (`models/entities.py` lines 187-229).  Field defaults mirror
the pydantic `Field` defaults; `source_file` / `source_page` /
`rule_type` / `auth_requirement` / `payer` are the required fields. -/
structure Rule where
  rule_id : Option String := none
  rule_type : RuleType
  auth_requirement : AuthRequirement
  payer : String
  category : Option String := none
  service : Option String := none
  cpt_codes : List String := []
  icd_codes : List String := []
  excluded_states : List String := []
  included_states : List String := []
  applicable_plans : List String := []
  age_restrictions : Option String := none
  quantity_limits : Option String := none
  clinical_criteria : Option String := none
  narrative_text : Option String := none
  requires_llm_processing : Bool := false
  source_file : String
  source_page : Int
  source_line : Option Int := none
  confidence_score : Option ℚ := none
  effective_date : Option String := none
  expiration_date : Option String := none
  last_updated : Option String := none
deriving DecidableEq, Repr

/-- The `valid_states` set of `State.validate_state_code`
(`models/entities.py` lines 156-163): 50 states + DC + the territories
PR, VI, GU, AS, MP — the same 56 codes as `statePattern56`. -/
def valid_states : List String := statePattern56

/-- `State.validate_state_code` (`models/entities.py` lines 149-168):
strip + uppercase, then membership in the canonical set (or `"ALL"`),
raising `ValueError` otherwise. -/
def validate_state_code (v : String) : Except String String :=
  let v' := String.mk ((pyStrip v.data).map Char.toUpper)
  if v' ∈ valid_states || v' == "ALL" then .ok v'
  else .error ("Invalid state code: " ++ v')

/-! ## `merge_related_rules` (`uhc_rules.py` lines 165-209) -/

/-- The grouping key of `merge_related_rules` (`uhc_rules.py`
lines 181-187): `(payer, category, service, auth_requirement.value)`. -/
def rule_key (r : Rule) : String × Option String × Option String × String :=
  (r.payer, r.category, r.service, r.auth_requirement.value)

/-- The `key in merged_rules` branch of `merge_related_rules`
(`uhc_rules.py` lines 189-205): extend then deduplicate the four code
lists, and take the minimum confidence — but only when **both**
confidence scores are truthy (`if rule.confidence_score and
existing.confidence_score:`), so a `None` or `0.0` confidence on either
side leaves the existing score unchanged.  Python's `list(set(...))` is
modelled by `List.dedup`; the set's iteration order is unspecified in
Python, and every fact proved below depends only on membership and
multiplicity, which any enumeration of the set shares. -/
def merge_into (existing incoming : Rule) : Rule :=
  { existing with
    cpt_codes := (existing.cpt_codes ++ incoming.cpt_codes).dedup
    icd_codes := (existing.icd_codes ++ incoming.icd_codes).dedup
    excluded_states := (existing.excluded_states ++ incoming.excluded_states).dedup
    included_states := (existing.included_states ++ incoming.included_states).dedup
    confidence_score :=
      match incoming.confidence_score, existing.confidence_score with
      | some b, some a => if b != 0 && a != 0 then some (min a b) else some a
      | _, _ => existing.confidence_score }

/-- One iteration of the `for rule in rules` loop of
`merge_related_rules`: update the entry of the (insertion-ordered)
`merged_rules` dict carrying this rule's key, or append a new entry. -/
def merge_insert : List Rule → Rule → List Rule
  | [], r => [r]
  | e :: rest, r =>
    if rule_key e = rule_key r then merge_into e r :: rest
    else e :: merge_insert rest r

/-- `merge_related_rules` (`uhc_rules.py` lines 165-209): fold the rules
into a dict keyed by `rule_key`, returning `list(merged_rules.values())`
in insertion order. -/
def merge_related_rules (rules : List Rule) : List Rule :=
  rules.foldl merge_insert []

/-! ## Hyperedge export (`models/entities.py` lines 236-262) -/

/-- The dictionary produced by `Rule.to_hyperedge`, flattened:
`nodes_*` fields are the entries of the `'nodes'` sub-dict and
`prop_*` / `source_*` the entries of `'properties'`. -/
structure Hyperedge where
  id : String
  type : String
  auth_requirement : String
  nodes_payer : String
  nodes_category : Option String
  nodes_service : Option String
  nodes_cpt_codes : List String
  nodes_icd_codes : List String
  nodes_states : List String
  nodes_plans : List String
  prop_clinical_criteria : Option String
  prop_age_restrictions : Option String
  prop_quantity_limits : Option String
  prop_effective_date : Option String
  source_file : String
  source_page : Int
  source_line : Option Int
deriving DecidableEq, Repr

/-- `Rule.to_hyperedge` (`models/entities.py` lines 236-262).  Note that
the single `'states'` node list is `excluded_states + included_states`,
and that the fallback `id` interpolates `None` for a missing category
(Python f-string). -/
def Rule.to_hyperedge (r : Rule) : Hyperedge :=
  { id :=
      if pyTruthyStr r.rule_id then r.rule_id.getD "" else
        r.payer ++ "_" ++ pyFormatOptStr r.category ++ "_" ++
          String.intercalate "-" (r.cpt_codes.take 3)
    type := "authorization_rule"
    auth_requirement := r.auth_requirement.value
    nodes_payer := r.payer
    nodes_category := r.category
    nodes_service := r.service
    nodes_cpt_codes := r.cpt_codes
    nodes_icd_codes := r.icd_codes
    nodes_states := r.excluded_states ++ r.included_states
    nodes_plans := r.applicable_plans
    prop_clinical_criteria := r.clinical_criteria
    prop_age_restrictions := r.age_restrictions
    prop_quantity_limits := r.quantity_limits
    prop_effective_date := r.effective_date
    source_file := r.source_file
    source_page := r.source_page
    source_line := r.source_line }

/-- Modelled from the spec: the repository has **no** hyperedge importer
(`to_hyperedge` has no inverse anywhere in the source); this is the
natural re-import of the spec's hyperedge view
(`{id, type, authRequirement, nodes:{...}, properties:{...,source}}`),
reading each Rule field back from the view's corresponding entry.  The
view has a single merged `states` list, which the importer can only
place somewhere; following the view's provenance of `states` it is read
back as `excluded_states`. -/
def from_hyperedge (h : Hyperedge) : Rule :=
  { rule_id := some h.id
    rule_type := RuleType.CPT_BASED
    auth_requirement :=
      if h.auth_requirement == "required" then .REQUIRED
      else if h.auth_requirement == "not_required" then .NOT_REQUIRED
      else if h.auth_requirement == "notification_only" then .NOTIFICATION_ONLY
      else .CONDITIONAL
    payer := h.nodes_payer
    category := h.nodes_category
    service := h.nodes_service
    cpt_codes := h.nodes_cpt_codes
    icd_codes := h.nodes_icd_codes
    excluded_states := h.nodes_states
    included_states := []
    applicable_plans := h.nodes_plans
    age_restrictions := h.prop_age_restrictions
    quantity_limits := h.prop_quantity_limits
    clinical_criteria := h.prop_clinical_criteria
    source_file := h.source_file
    source_page := h.source_page
    source_line := h.source_line
    effective_date := h.prop_effective_date }

/-! ## Enhanced model (`src/models_enhanced.py`)

`EnhancedRule` extends `Rule`, overriding `age_restrictions` with a
typed list.  The `provider_restrictions` / `time_restrictions` fields
are never constructed with non-default values and never read by any
code path modelled here, and are omitted. -/

/-- `PlaceOfService` (`models_enhanced.py` lines 14-22). -/
structure PlaceOfService where
  pos_code : String
  description : String
  requires_auth : Bool := false
  preferred_setting : Bool := false
  review_type : Option String := none
deriving DecidableEq, Repr

/-- `DiagnosisException` (`models_enhanced.py` lines 25-32). -/
structure DiagnosisException where
  icd_codes : List String
  exception_type : String
  applies_to_cpt_codes : List String := []
  description : Option String := none
deriving DecidableEq, Repr

/-- `AgeRestriction` (`models_enhanced.py` lines 55-63). -/
structure AgeRestriction where
  min_age : Option Int := none
  max_age : Option Int := none
  age_units : String := "YEARS"
  special_population : Option String := none
  auth_requirement : AuthRequirement
deriving DecidableEq, Repr

/-- One entry of a `ConditionalLogic.conditions` list — the source
stores dicts `{'type': 'state_not_in', 'values': [...]}` and
`{'type': 'auth_required', 'value': True}`. -/
inductive CondItem where
  | state_not_in (values : List String)
  | auth_required (value : Bool)
deriving DecidableEq, Repr

/-- `ConditionalLogic` (`models_enhanced.py` lines 45-52). -/
structure ConditionalLogic where
  condition_type : String
  conditions : List CondItem
  result_auth_requirement : AuthRequirement
  priority : Int := 1
deriving DecidableEq, Repr

/-- `EnhancedRule` (`models_enhanced.py` lines 76-108): the base `Rule`
fields (with `age_restrictions` overridden to a typed list) plus the
enhanced feature lists. -/
structure EnhancedRule where
  rule_id : Option String := none
  rule_type : RuleType
  auth_requirement : AuthRequirement
  payer : String
  category : Option String := none
  service : Option String := none
  cpt_codes : List String := []
  icd_codes : List String := []
  excluded_states : List String := []
  included_states : List String := []
  applicable_plans : List String := []
  quantity_limits : Option String := none
  clinical_criteria : Option String := none
  narrative_text : Option String := none
  requires_llm_processing : Bool := false
  source_file : String
  source_page : Int
  source_line : Option Int := none
  confidence_score : Option ℚ := none
  effective_date : Option String := none
  expiration_date : Option String := none
  last_updated : Option String := none
  place_of_service_restrictions : List PlaceOfService := []
  diagnosis_exceptions : List DiagnosisException := []
  age_restrictions : List AgeRestriction := []
  conditional_logic : List ConditionalLogic := []
deriving DecidableEq, Repr

/-- `EnhancedRule.from_basic_rule` (`models_enhanced.py` lines 110-119):
copy every base field, popping the legacy `age_restrictions` and
`quantity_limits` entries so the enhanced fields take their defaults. -/
def EnhancedRule.from_basic_rule (r : Rule) : EnhancedRule :=
  { rule_id := r.rule_id
    rule_type := r.rule_type
    auth_requirement := r.auth_requirement
    payer := r.payer
    category := r.category
    service := r.service
    cpt_codes := r.cpt_codes
    icd_codes := r.icd_codes
    excluded_states := r.excluded_states
    included_states := r.included_states
    applicable_plans := r.applicable_plans
    clinical_criteria := r.clinical_criteria
    narrative_text := r.narrative_text
    requires_llm_processing := r.requires_llm_processing
    source_file := r.source_file
    source_page := r.source_page
    source_line := r.source_line
    confidence_score := r.confidence_score
    effective_date := r.effective_date
    expiration_date := r.expiration_date
    last_updated := r.last_updated }

/-- The keyword arguments of `EnhancedRule.evaluate_authorization`. -/
structure EvalContext where
  patient_age : Option Int := none
  diagnosis_codes : List String := []
  place_of_service : Option String := none
  provider_specialty : Option String := none
  patient_state : Option String := none
  plan_type : Option String := none
deriving Repr

/-- The `{'auth_required', 'reason', 'confidence'}` dict returned by
`EnhancedRule.evaluate_authorization`. -/
structure EvalOutcome where
  auth_required : Bool
  reason : String
  confidence : ℚ
deriving DecidableEq, Repr

/-- `EnhancedRule.evaluate_authorization` (`models_enhanced.py`
lines 121-180): geographic exclusion, then the first EXEMPT diagnosis
exception with an ICD overlap, then the first place-of-service entry
matching the query's POS code, then the first age restriction whose
bounds contain the patient age, then the base rule (`auth_required`
exactly when the requirement is `REQUIRED`; confidence
`confidence_score or 0.7`). -/
def EnhancedRule.evaluate_authorization (r : EnhancedRule) (ctx : EvalContext) :
    EvalOutcome :=
  if pyTruthyStr ctx.patient_state &&
      decide ((ctx.patient_state.getD "") ∈ r.excluded_states) then
    { auth_required := false
      reason := "Geographic exclusion: " ++ ctx.patient_state.getD ""
      confidence := 1 }
  else
    match r.diagnosis_exceptions.find? fun dx =>
        dx.icd_codes.any (· ∈ ctx.diagnosis_codes) &&
        dx.exception_type == "EXEMPT" with
    | some dx =>
      { auth_required := false
        reason := "Diagnosis exception: " ++ pyReprStrList dx.icd_codes
        confidence := q09 }
    | none =>
      match (if pyTruthyStr ctx.place_of_service then
          r.place_of_service_restrictions.find? fun pos =>
            pos.pos_code == ctx.place_of_service.getD ""
        else none) with
      | some pos =>
        { auth_required := pos.requires_auth
          reason := "Place of service rule: " ++ pos.description
          confidence := q09 }
      | none =>
        match ((match ctx.patient_age with
          | some a =>
            r.age_restrictions.find? fun ar =>
              (ar.min_age.elim true fun m => m ≤ a) &&
              (ar.max_age.elim true fun m => a ≤ m)
          | none => none) : Option AgeRestriction) with
        | some ar =>
          { auth_required := ar.auth_requirement == .REQUIRED
            reason := "Age-based rule: " ++ pyFormatOptInt ar.min_age ++ "-" ++
              pyFormatOptInt ar.max_age
            confidence := q08 }
        | none =>
          { auth_required := r.auth_requirement == .REQUIRED
            reason := "Base rule"
            confidence :=
              if pyTruthyRat r.confidence_score then r.confidence_score.getD 0
              else q07 }

/-! ## Dual-parser loader evaluation (`src/loaders/dual_parser_loader.py`) -/

/-- A loaded rule is either a basic `Rule` or an `EnhancedRule`
(`DualParserLoader.loaded_rules : List[Union[Rule, EnhancedRule]]`). -/
inductive LoadedRule where
  | basic (r : Rule)
  | enhanced (e : EnhancedRule)
deriving DecidableEq, Repr

def LoadedRule.cpt_codes : LoadedRule → List String
  | .basic r => r.cpt_codes
  | .enhanced e => e.cpt_codes

def LoadedRule.auth_requirement : LoadedRule → AuthRequirement
  | .basic r => r.auth_requirement
  | .enhanced e => e.auth_requirement

/-- `isinstance(rule, EnhancedRule)`. -/
def LoadedRule.isEnhanced : LoadedRule → Bool
  | .basic _ => false
  | .enhanced _ => true

/-- The result dict of `DualParserLoader.evaluate_authorization`; the
no-applicable-rules default omits the `'rules_evaluated'` key, hence the
`Option`. -/
structure LoaderResult where
  auth_required : Bool
  reason : String
  confidence : ℚ
  evaluation_method : String
  rules_evaluated : Option Nat := none
deriving DecidableEq, Repr

/-- Python `max(l, key=f)` for a nonempty list: the first element
attaining the maximum (later elements replace only on strictly greater
key); `none` models the `ValueError` of `max([])`. -/
def pyMaxBy {α : Type} (f : α → ℚ) : List α → Option α
  | [] => none
  | x :: xs => some (xs.foldl (fun best y => if f y > f best then y else best) x)

/-- `DualParserLoader._enhanced_evaluation` (lines 214-245): evaluate
every rule with the context; if some evaluation requires auth, report
the highest-confidence requiring evaluation, else the
highest-confidence evaluation overall. -/
def enhanced_evaluation (rules : List EnhancedRule) (ctx : EvalContext) :
    Option LoaderResult :=
  let evaluations := rules.map fun r => (r, r.evaluate_authorization ctx)
  let required_evaluations := evaluations.filter fun e => e.2.auth_required
  if !required_evaluations.isEmpty then
    (pyMaxBy (fun e => e.2.confidence) required_evaluations).map fun best =>
      { auth_required := true
        reason := best.2.reason
        confidence := best.2.confidence
        evaluation_method := "enhanced"
        rules_evaluated := some rules.length }
  else
    (pyMaxBy (fun e => e.2.confidence) evaluations).map fun best =>
      { auth_required := false
        reason := best.2.reason
        confidence := best.2.confidence
        evaluation_method := "enhanced"
        rules_evaluated := some rules.length }

/-- `DualParserLoader._basic_evaluation` (lines 247-258): auth is
required when **some** rule's requirement is `REQUIRED` (a
`CONDITIONAL` or `NOTIFICATION_ONLY` rule never trips it). -/
def basic_evaluation (rules : List LoadedRule) : LoaderResult :=
  let requires_auth := rules.any fun r => r.auth_requirement == .REQUIRED
  { auth_required := requires_auth
    reason := if requires_auth then "Basic rule match" else "No authorization required"
    confidence := if rules ≠ [] then q08 else q03
    evaluation_method := "basic"
    rules_evaluated := some rules.length }

/-- `DualParserLoader.evaluate_authorization` (lines 191-212): filter
the loaded rules by CPT overlap; with no applicable rule return the
silent default (`auth_required=False`, confidence 0.5); otherwise
dispatch on the flag and on `isinstance(applicable_rules[0],
EnhancedRule)`.  In the enhanced branch the source calls
`rule.evaluate_authorization` on *every* applicable rule, which raises
`AttributeError` on a plain `Rule`; that crash is modelled by the
`mapM` returning `none`. -/
def loader_evaluate_authorization (enable_enhanced_evaluation : Bool)
    (loaded_rules : List LoadedRule) (cpt_codes : List String)
    (ctx : EvalContext) : Option LoaderResult :=
  let applicable_rules := loaded_rules.filter fun rule =>
    cpt_codes.any (· ∈ rule.cpt_codes)
  if applicable_rules = [] then
    some { auth_required := false
           reason := "No applicable rules found"
           confidence := q05
           evaluation_method := "none" }
  else if enable_enhanced_evaluation &&
      (applicable_rules.head?.elim false LoadedRule.isEnhanced) then
    (applicable_rules.mapM fun
      | .enhanced e => some e
      | .basic _ => none) >>= fun es => enhanced_evaluation es ctx
  else
    some (basic_evaluation applicable_rules)

/-! ## Basic REST evaluation endpoint (`src/app/main.py` lines 223-272) -/

/-- `PriorAuthRequest` (`main.py` lines 31-36). -/
structure PriorAuthRequest where
  cpt_codes : List String := []
  icd_codes : Option (List String) := none
  patient_age : Option Int := none
  state : Option String := none
  service_setting : Option String := none
deriving Repr

/-- `PriorAuthResponse` (`main.py` lines 38-43). -/
structure PriorAuthResponse where
  requires_authorization : AuthRequirement
  confidence_score : ℚ
  applicable_rules : List Rule
  reasoning_path : List String
  geographic_exceptions : List String
deriving DecidableEq, Repr

/-- `evaluate_authorization` — the `/authorization/evaluate` endpoint
(`src/app/main.py` lines 223-272).  An empty `cpt_codes` list is not
rejected: the rule loop matches nothing and the function falls into the
"no matching rules" default decision. -/
def evaluate_authorization_endpoint (loaded_rules : List Rule)
    (request : PriorAuthRequest) : PriorAuthResponse :=
  let init : List Rule × List String × List String :=
    ([], ["Searching for rules matching CPT codes: " ++
          pyReprStrList request.cpt_codes], [])
  let step := fun (acc : List Rule × List String × List String) (rule : Rule) =>
    if request.cpt_codes.any (· ∈ rule.cpt_codes) then
      if pyTruthyStr request.state &&
          decide ((request.state.getD "") ∈ rule.excluded_states) then
        (acc.1, acc.2.1 ++ ["Rule excluded for state " ++ request.state.getD ""],
         acc.2.2 ++ [request.state.getD ""])
      else
        (acc.1 ++ [rule],
         acc.2.1 ++ ["Found applicable rule with CPT codes: " ++
                     pyReprStrList rule.cpt_codes],
         acc.2.2)
    else acc
  let res := loaded_rules.foldl step init
  if res.1 = [] then
    { requires_authorization := .NOT_REQUIRED
      confidence_score := q03
      applicable_rules := []
      reasoning_path := res.2.1 ++ ["No matching rules found - defaulting to not required"]
      geographic_exceptions := res.2.2 }
  else
    let requires_auth := res.1.any fun r =>
      r.auth_requirement.value == AuthRequirement.REQUIRED.value
    let ar := if requires_auth then AuthRequirement.REQUIRED else .NOT_REQUIRED
    { requires_authorization := ar
      confidence_score := if res.1 ≠ [] then q08 else q03
      applicable_rules := res.1
      reasoning_path := res.2.1 ++ ["Final decision: " ++ ar.value]
      geographic_exceptions := res.2.2 }

/-! ## Interactive evaluation path (`interactive_pa_system.py`) -/

/-- Python exceptions surfaced by the modelled code paths. -/
inductive PyErr where
  | attributeError (name : String)
  | validationError (missing_field : String)
deriving DecidableEq, Repr

/-- The `patient_info` dict of `InteractivePASystem`. -/
structure PatientInfo where
  payer : String := ""
  state : String := ""
  age : Option Int := none
deriving Repr

/-- The `procedure_info` dict of `InteractivePASystem`. -/
structure ProcedureInfo where
  cpt_codes : List String := []
  icd_codes : List String := []
  place_of_service : Option String := none
deriving Repr

/-- The match-details dict of `check_rule_match`. -/
structure MatchDetails where
  is_match : Bool
  cpt_match : Bool
  icd_match : Bool
  payer_match : Bool
  state_applicable : Bool
  age_applicable : Bool
  matched_cpt_codes : List String
  exclusion_reasons : List String
deriving Repr

/-- `InteractivePASystem.check_rule_match` (lines 221-285).  A rule
matches when payer (substring, case-insensitive), CPT overlap, ICD
requirement, state exclusion and age all pass.  When
`patient_info['age']` is truthy the source reads `rule.age_min`, an
attribute the `Rule` model does not define, so Python raises
`AttributeError`; modelled as `Except.error`. -/
def check_rule_match (rule : Rule) (patient : PatientInfo)
    (proc : ProcedureInfo) : Except PyErr MatchDetails := do
  let payer_match := containsSub (lowerChars rule.payer.data) (lowerChars patient.payer.data)
  let matched_cpt := (proc.cpt_codes.filter (· ∈ rule.cpt_codes)).dedup
  let cpt_match := matched_cpt ≠ []
  let icd_match :=
    if rule.icd_codes ≠ [] then proc.icd_codes.any (· ∈ rule.icd_codes)
    else true
  let state_applicable :=
    !(rule.excluded_states ≠ [] && patient.state ∈ rule.excluded_states)
  let exclusion_reasons :=
    if rule.excluded_states ≠ [] && patient.state ∈ rule.excluded_states then
      ["State " ++ patient.state ++ " is excluded"]
    else []
  match patient.age with
  | some a =>
    if a ≠ 0 then throw (PyErr.attributeError "age_min")
    else pure ()
  | none => pure ()
  let age_applicable := true
  pure { is_match := payer_match && cpt_match && icd_match &&
           state_applicable && age_applicable
         cpt_match := cpt_match
         icd_match := icd_match
         payer_match := payer_match
         state_applicable := state_applicable
         age_applicable := age_applicable
         matched_cpt_codes := matched_cpt
         exclusion_reasons := exclusion_reasons }

/-- The evaluation dict of `InteractivePASystem.evaluate_authorization`
(the advisory `recommendations` strings appended by
`generate_recommendations` are display-only and never read back; they
are not modelled). -/
structure InteractiveEvaluation where
  matching_rules : List Rule
  authorization_required : Bool
  authorization_type : String
  reasons : List String
deriving Repr

/-- `InteractivePASystem.evaluate_authorization` (lines 164-219): auth
is required when some matching rule is `REQUIRED`, and **also** when —
no rule being `REQUIRED` — some matching rule is `CONDITIONAL`;
`NOTIFICATION_ONLY` sets the type but leaves
`authorization_required = False`. -/
def interactive_evaluate_authorization (rules : List Rule)
    (patient : PatientInfo) (proc : ProcedureInfo) :
    Except PyErr InteractiveEvaluation := do
  let matching ← rules.foldlM (fun (acc : List Rule) r => do
      let m ← check_rule_match r patient proc
      pure (if m.is_match then acc ++ [r] else acc)) []
  let auth_requirements := matching.map (·.auth_requirement)
  let res :=
    if matching ≠ [] then
      if AuthRequirement.REQUIRED ∈ auth_requirements then
        (true, "REQUIRED", ["Procedure requires prior authorization per payer rules"])
      else if AuthRequirement.CONDITIONAL ∈ auth_requirements then
        (true, "CONDITIONAL",
         ["Procedure may require authorization based on specific conditions"])
      else if AuthRequirement.NOTIFICATION_ONLY ∈ auth_requirements then
        (false, "NOTIFICATION_ONLY",
         ["Notification to payer required, but no prior authorization"])
      else (false, "NOT_REQUIRED", [])
    else (false, "NOT_REQUIRED", [])
  let rule_reasons :=
    if matching ≠ [] then
      matching.foldl (fun acc r =>
        acc ++
        (if pyTruthyStr r.clinical_criteria then
          ["Clinical criteria: " ++ r.clinical_criteria.getD ""] else []) ++
        (if r.excluded_states ≠ [] && patient.state ∈ r.excluded_states then
          ["State exclusion applies: " ++ patient.state] else [])) []
    else []
  pure { matching_rules := matching
         authorization_required := res.1
         authorization_type := res.2.1
         reasons := res.2.2 ++ rule_reasons }

/-! ## Classifier pattern families (`intelligent_chunker.py` lines 38-83)

Each pattern is an alternation-free phrase regex; `X.*Y` requires an
occurrence of `Y` after `X` with no intervening newline (`.` does not
match `\n`).  `_classify_content` searches every pattern on the
lowercased content with `re.IGNORECASE`; `_extract_hints` searches
without flags, so its patterns run case-sensitively against the already
lowercased text (which silently disables the `'PA required'` pattern
there). -/

/-- `re.search(a + '.*' + b, s)`: an occurrence of `a` followed by an
occurrence of `b` beginning in the newline-free stretch after it. -/
def seqNoNL (a b : Chars) (s : Chars) : Bool :=
  (List.range (s.length + 1)).any fun i =>
    occursAt s i a &&
    (let rest := s.drop (i + a.length)
     (List.range ((rest.takeWhile (· ≠ '\n')).length + 1)).any fun j =>
       occursAt rest j b)

/-- One match of `\b\d{5}[-]\d{5}\b` at index `i`. -/
def cptRangeAt (s : Chars) (i : Nat) : Bool :=
  let w := (s.drop i).take 11
  w.length == 11 && (w.take 5).all Char.isDigit && w.getD 5 ' ' == '-' &&
  (w.drop 6).all Char.isDigit &&
  (i == 0 || !isWordChar (s.getD (i - 1) ' ')) &&
  (i + 11 == s.length || !isWordChar (s.getD (i + 11) ' '))

/-- `re.search(r'\b\d{5}[-]\d{5}\b', s)` (`intelligent_chunker.py`
line 65). -/
def hasCptRange (s : Chars) : Bool :=
  (List.range s.length).any (cptRangeAt s)

/-- End positions of successive `,\s*\d{5}` groups starting at suffix
position `j` (fuelled by the remaining length; each group consumes at
least 6 characters). -/
def cptListGroupEnds (s : Chars) : Nat → Nat → List Nat
  | 0, _ => []
  | fuel + 1, j =>
    let rest := s.drop j
    if rest.headD ' ' == ',' then
      let rest1 := rest.drop 1
      let spaces := (rest1.takeWhile isSpaceChar).length
      let ds := (rest1.drop spaces).take 5
      if ds.length == 5 && ds.all Char.isDigit then
        let j' := j + 1 + spaces + 5
        j' :: cptListGroupEnds s fuel j'
      else []
    else []

/-- `re.search(r'\b\d{5}(?:,\s*\d{5})+\b', s)` (`intelligent_chunker.py`
line 66): an anchored 5-digit group followed by one or more comma
groups; the trailing word boundary is checked against every possible
group end (the regex backtracks on the `+`). -/
def hasCptList (s : Chars) : Bool :=
  (List.range s.length).any fun i =>
    let w := (s.drop i).take 5
    w.length == 5 && w.all Char.isDigit &&
    (i == 0 || !isWordChar (s.getD (i - 1) ' ')) &&
    ((cptListGroupEnds s s.length (i + 5)).any fun e =>
      e == s.length || !isWordChar (s.getD e ' '))

/-- The seven `auth_patterns` (lines 40-48), each evaluated by
`re.search` on the lowercased content; `ci` records whether the caller
passed `re.IGNORECASE` (the classifier does, `_extract_hints` does
not — without it the literal `'PA required'` cannot match lowercased
text). -/
def auth_patterns_found (ci : Bool) (content_lower : Chars) : List Bool :=
  [seqNoNL "prior authorization".data "required".data content_lower,
   seqNoNL "requires".data "prior auth".data content_lower,
   seqNoNL "auth".data "required".data content_lower,
   seqNoNL "must obtain".data "authorization".data content_lower,
   seqNoNL "authorization".data "necessary".data content_lower,
   containsSub (if ci then "pa required".data else "PA required".data) content_lower,
   seqNoNL "prior auth".data "needed".data content_lower]

/-- The seven `exception_patterns` (lines 50-58). -/
def exception_patterns_found (content_lower : Chars) : List Bool :=
  [containsSub "exception".data content_lower,
   seqNoNL "excluded".data "from".data content_lower,
   containsSub "does not apply".data content_lower,
   seqNoNL "not required".data "for".data content_lower,
   seqNoNL "exempt".data "from".data content_lower,
   containsSub "excluding".data content_lower,
   containsSub "except for".data content_lower]

/-- The six `cpt_patterns` (lines 60-67). -/
def cpt_patterns_found (content_lower : Chars) : List Bool :=
  [seqNoNL "cpt".data "code".data content_lower,
   seqNoNL "procedure".data "code".data content_lower,
   containsSub "hcpcs".data content_lower,
   !(findallFiveDigit content_lower).isEmpty,
   hasCptRange content_lower,
   hasCptList content_lower]

/-- The five `geographic_patterns` (lines 69-75). -/
def geographic_patterns_found (content_lower : Chars) : List Bool :=
  [containsSub "state".data content_lower,
   containsSub "geographic".data content_lower,
   containsSub "region".data content_lower,
   containsSub "location".data content_lower,
   hasStateTokenCI statePattern56 content_lower]

/-- The five `not_required_patterns` (lines 77-83). -/
def not_required_patterns_found (content_lower : Chars) : List Bool :=
  [containsSub "not required".data content_lower,
   seqNoNL "no".data "authorization".data content_lower,
   containsSub "exempt".data content_lower,
   containsSub "excluded".data content_lower,
   containsSub "does not apply".data content_lower]

/-! ## `BasicIntelligentChunker._classify_content` (lines 182-215) -/

/-- The scoring, argmax and confidence logic of `_classify_content`
given the four pattern-family match counts.  `max(scores.keys(),
key=...)` iterates the dict in insertion order and keeps the current
winner unless a later score is strictly greater, so ties resolve to the
earlier key. -/
def classify_scores (auth_matches exception_matches cpt_matches geo_matches : Nat) :
    String × ℚ :=
  let scores : List (String × Nat) :=
    [("authorization_rule", auth_matches * 2 + cpt_matches),
     ("geographic_exception", exception_matches * 2 + geo_matches),
     ("procedure_list", cpt_matches * 2),
     ("context_info", 1)]
  let best :=
    match scores with
    | [] => ("context_info", 1)
    | x :: xs => xs.foldl (fun (b c : String × Nat) => if c.2 > b.2 then c else b) x
  let max_score : Nat := best.2
  let total_matches : Nat := (scores.map (·.2)).sum
  let confidence : ℚ :=
    if total_matches > 1 then min ((max_score : ℚ) / (total_matches : ℚ)) q095
    else q05
  let confidence :=
    if max_score ≥ 3 then min (confidence + q02) q095 else confidence
  (best.1, confidence)

/-- `_classify_content` on the section content: lowercase, count the
pattern-family matches, then score (lines 184-215). -/
def classify_content (content : Chars) : String × ℚ :=
  let content_lower := lowerChars content
  classify_scores
    ((auth_patterns_found true content_lower).count true)
    ((exception_patterns_found content_lower).count true)
    ((cpt_patterns_found content_lower).count true)
    ((geographic_patterns_found content_lower).count true)

/-! ## `BasicIntelligentChunker._extract_hints` (lines 217-251) -/

/-- The typed content of the `extraction_hints` dict: a key is `none`
when the source never inserts it. -/
structure ExtractionHints where
  content_type : String
  cpt_codes : Option (List String) := none
  states : Option (List String) := none
  auth_requirement : Option String := none
  exception_type : Option String := none
deriving DecidableEq, Repr

/-- `_extract_hints` (lines 217-251): deduplicated code and state
hints; `NOT_REQUIRED` patterns take precedence over `REQUIRED`
patterns; a `geographic_exception` chunk defaults its auth hint to
`NOT_REQUIRED` and is tagged `EXCLUSION`.  (`list(set(...))` is
modelled by `dedup`; set enumeration order is unspecified in Python and
only membership/multiplicity are used below.) -/
def extract_hints (content : Chars) (content_type : String) : ExtractionHints :=
  let all_codes := findallFiveDigit content ++ findallHcpcs content
  let cpt := if all_codes ≠ [] then some all_codes.dedup else none
  let states := findallStateCodes statePattern56 content
  let statesOpt := if states ≠ [] then some states.dedup else none
  let content_lower := lowerChars content
  let auth0 : Option String :=
    if (not_required_patterns_found content_lower).any id then some "NOT_REQUIRED"
    else if (auth_patterns_found false content_lower).any id then some "REQUIRED"
    else none
  if content_type == "geographic_exception" then
    { content_type := content_type
      cpt_codes := cpt
      states := statesOpt
      auth_requirement := some (auth0.getD "NOT_REQUIRED")
      exception_type := some "EXCLUSION" }
  else
    { content_type := content_type
      cpt_codes := cpt
      states := statesOpt
      auth_requirement := auth0 }

/-! ## Hint-fallback rule construction (`enhanced_rule_parser.py`) -/

/-- The fields of `ProcessedChunk` read by
`EnhancedRuleParser._create_rule_from_hints`. -/
structure ProcessedChunk where
  chunk_id : String
  content_type : String
  extraction_hints : ExtractionHints
  confidence_score : ℚ
deriving Repr

/-- The keyword-argument set of a `Rule(...)` constructor call (only the
keywords that `_create_rule_from_hints` can pass). -/
structure RuleCtorArgs where
  rule_id : Option String := none
  rule_type : Option RuleType := none
  auth_requirement : Option AuthRequirement := none
  payer : Option String := none
  cpt_codes : Option (List String) := none
  source_file : Option String := none
  source_page : Option Int := none
deriving Repr

/-- Pydantic validation of a `Rule(...)` call over that argument set:
each field declared required in `models/entities.py` (`rule_type`,
`auth_requirement`, `payer`, `source_file`, `source_page`) must be
present, otherwise the constructor raises `ValidationError` naming the
missing field. -/
def rule_construct (a : RuleCtorArgs) : Except PyErr Rule :=
  match a.rule_type, a.auth_requirement, a.payer, a.source_file, a.source_page with
  | some rt, some ar, some p, some sf, some sp =>
    .ok { rule_id := a.rule_id
          rule_type := rt
          auth_requirement := ar
          payer := p
          cpt_codes := a.cpt_codes.getD []
          source_file := sf
          source_page := sp }
  | _, _, _, _, _ =>
    .error (.validationError
      (if a.rule_type.isNone then "rule_type"
       else if a.auth_requirement.isNone then "auth_requirement"
       else if a.payer.isNone then "payer"
       else if a.source_file.isNone then "source_file"
       else "source_page"))

/-- The argument record of the `Rule(...)` call at
`enhanced_rule_parser.py` lines 111-118: `AuthRequirement.REQUIRED` when
`hints.get('auth_requirement') == 'REQUIRED'`, else
`AuthRequirement.NOT_REQUIRED`.  `source_page` — required by the `Rule`
model — is absent from the keyword list. -/
def create_rule_from_hints_args (chunk : ProcessedChunk) (source_file : String) :
    RuleCtorArgs :=
  { rule_id := some ("hint_rule_" ++ String.mk (chunk.chunk_id.data.take 12))
    rule_type := some .CPT_BASED
    auth_requirement := some
      (if chunk.extraction_hints.auth_requirement == some "REQUIRED" then
        .REQUIRED
       else .NOT_REQUIRED)
    payer := some "UnitedHealthcare"
    cpt_codes := chunk.extraction_hints.cpt_codes
    source_file := some source_file }

/-- `EnhancedRuleParser._create_rule_from_hints` (lines 102-124): with
no CPT hints (key absent or falsy) return no rules; otherwise construct
the minimal `Rule` and set `confidence_score = chunk.confidence_score *
0.6`. -/
def create_rule_from_hints (chunk : ProcessedChunk) (source_file : String) :
    Except PyErr (List Rule) := do
  match chunk.extraction_hints.cpt_codes with
  | none => pure []
  | some [] => pure []
  | some _ =>
    let rule ← rule_construct (create_rule_from_hints_args chunk source_file)
    pure [{ rule with confidence_score := some (chunk.confidence_score * q06) }]

/-! ## Phrase-pattern matcher for the enhanced extractor
(`uhc_rules_enhanced.py`, `AdvancedPatternExtractor`)

Every pattern of `AdvancedPatternExtractor` is built from literal words
joined by `\s*`, alternations/optional groups of such pieces, a greedy
`[^.]*` gap before a literal, and a single trailing capture group
(`([^.]+)`, `(\d+)` or the state-list group).  All of them carry
`(?i)`, so literals are compared case-insensitively while the matched
text (and hence every capture) keeps its original case.  The matcher
below implements exactly these constructs with regex backtracking
semantics; a `Nat` fuel (consumed once per token step) keeps the
recursion structural, and `patFuel` exceeds the expanded length of
every embedded pattern. -/

/-- Case-insensitive character equality (ASCII). -/
def charEqCI (a b : Char) : Bool := a.toLower == b.toLower

/-- Case-insensitive prefix test. -/
def prefixCI : Chars → Chars → Bool
  | [], _ => true
  | _ :: _, [] => false
  | a :: as, b :: bs => charEqCI a b && prefixCI as bs

/-- Pattern tokens.  `seqAlts` is ordered alternation of token
sequences (regex tries branches left to right; an optional group
`(?:X)?` is `seqAlts [X, []]`). -/
inductive PTok where
  | lit (w : String)
  | ws
  | seqAlts (branches : List (List PTok))
  | gapLit (w : String)
  | capNoDot
  | capDigits
  | capStateList

/-- `(?:w\s*)?`. -/
def optTok (w : String) : PTok := .seqAlts [[.lit w, .ws], []]

/-- `(?:w1|w2|…)` over plain literals. -/
def altTok (ws : List String) : PTok := .seqAlts (ws.map fun w => [.lit w])

/-- Characters consumed by the `(?:,?\s*[A-Z]{2})*` tail of the
state-list capture group (under `(?i)`), greedily. -/
def stateListExtend : Nat → Chars → Nat
  | 0, _ => 0
  | fuel + 1, s =>
    let c1 : Nat := if s.headD ' ' == ',' then 1 else 0
    let s1 := s.drop c1
    let sp := (s1.takeWhile isSpaceChar).length
    let s2 := s1.drop sp
    if (s2.take 2).length == 2 && (s2.take 2).all Char.isAlpha then
      let used := c1 + sp + 2
      used + stateListExtend fuel (s.drop used)
    else 0

/-- Fuelled backtracking matcher: `matchToks fuel toks s` matches
`toks` against a prefix of `s`, returning the remaining suffix and the
capture group (every embedded pattern has at most one capture, always
in final position, so the greedy capture needs no backtracking). -/
def matchToks : Nat → List PTok → Chars → Option (Chars × Option Chars)
  | 0, _, _ => none
  | _ + 1, [], s => some (s, none)
  | fuel + 1, .lit w :: rest, s =>
    if prefixCI w.data s then matchToks fuel rest (s.drop w.length) else none
  | fuel + 1, .ws :: rest, s => matchToks fuel rest (s.dropWhile isSpaceChar)
  | fuel + 1, .seqAlts bs :: rest, s =>
    bs.findSome? fun b => matchToks fuel (b ++ rest) s
  | fuel + 1, .gapLit w :: rest, s =>
    let dotFree := (s.takeWhile (· ≠ '.')).length
    ((List.range (dotFree + 1)).reverse).findSome? fun k =>
      if prefixCI w.data (s.drop k) then
        matchToks fuel rest (s.drop (k + w.length))
      else none
  | fuel + 1, .capNoDot :: rest, s =>
    let cap := s.takeWhile (· ≠ '.')
    if cap.isEmpty then none
    else
      (matchToks fuel rest (s.drop cap.length)).map fun r => (r.1, some cap)
  | fuel + 1, .capDigits :: rest, s =>
    let cap := s.takeWhile Char.isDigit
    if cap.isEmpty then none
    else
      (matchToks fuel rest (s.drop cap.length)).map fun r => (r.1, some cap)
  | fuel + 1, .capStateList :: rest, s =>
    if (s.take 2).length == 2 && (s.take 2).all Char.isAlpha then
      let n := 2 + stateListExtend s.length (s.drop 2)
      (matchToks fuel rest (s.drop n)).map fun r => (r.1, some (s.take n))
    else none

/-- Fuel sufficient for every pattern below (largest expanded pattern
is well under 40 token steps). -/
def patFuel : Nat := 200

/-- Leftmost match of `toks` in `s`: start index, capture, and the
suffix after the match. -/
def firstMatchFrom (toks : List PTok) (s : Chars) :
    Option (Nat × Option Chars × Chars) :=
  (List.range (s.length + 1)).findSome? fun i =>
    (matchToks patFuel toks (s.drop i)).map fun r => (i, r.2, r.1)

/-- `re.finditer`: successive non-overlapping leftmost matches
(`(start, end, capture)` in absolute offsets); every embedded pattern
consumes at least one character, and the fuel (one unit per match)
covers any number of matches in `s`. -/
def finditerSpans (toks : List PTok) : Nat → Chars → Nat →
    List (Nat × Nat × Option Chars)
  | 0, _, _ => []
  | fuel + 1, s, base =>
    match firstMatchFrom toks s with
    | none => []
    | some (i, cap, after) =>
      let e := s.length - after.length
      if e ≤ i then [(base + i, base + e, cap)]
      else (base + i, base + e, cap) :: finditerSpans toks fuel after (base + e)

/-- All matches of `toks` in `text`, with spans and captures. -/
def finditer (toks : List PTok) (text : Chars) : List (Nat × Nat × Option Chars) :=
  finditerSpans toks (text.length + 1) text 0

/-- The capture groups of all matches of `toks` in `text`. -/
def finditerCaps (toks : List PTok) (text : Chars) : List Chars :=
  (finditer toks text).filterMap fun sp => sp.2.2

/-- `re.search(pattern, s)` for a phrase pattern. -/
def searchToks (toks : List PTok) (s : Chars) : Bool :=
  (List.range (s.length + 1)).any fun i => (matchToks patFuel toks (s.drop i)).isSome

/-- Python slice `s[a:b]` (negative indices count from the end and the
result clamps to the string — the source's `text[match.start()-50:…]`
window relies on this). -/
def pySlice (s : Chars) (a b : Int) : Chars :=
  let n : Int := s.length
  let a' := (if a < 0 then max 0 (n + a) else min a n).toNat
  let b' := (if b < 0 then max 0 (n + b) else min b n).toNat
  (s.take b').drop a'

/-- Decimal digits to a number. -/
def digitsToNat (ds : Chars) : Nat :=
  ds.foldl (fun acc c => acc * 10 + (c.toNat - '0'.toNat)) 0

/-! ## `AdvancedPatternExtractor` patterns (`uhc_rules_enhanced.py`)

Token transcriptions of the `(?i)` regexes, one definition per source
pattern, in source order. -/

/-- `prior\s*authorization\s*(?:is\s*)?required` (line 49). -/
def pat_req1 : List PTok :=
  [.lit "prior", .ws, .lit "authorization", .ws, optTok "is", .lit "required"]

/-- `requires?\s*prior\s*authorization` (line 50). -/
def pat_req2 : List PTok :=
  [altTok ["requires", "require"], .ws, .lit "prior", .ws, .lit "authorization"]

/-- `PA\s*required` (line 51). -/
def pat_req3 : List PTok := [.lit "pa", .ws, .lit "required"]

/-- `authorization\s*necessary` (line 52). -/
def pat_req4 : List PTok := [.lit "authorization", .ws, .lit "necessary"]

/-- `(?:no|not)\s*(?:prior\s*)?authorization\s*(?:is\s*)?(?:required|necessary)`
(line 55). -/
def pat_nreq1 : List PTok :=
  [altTok ["no", "not"], .ws, optTok "prior", .lit "authorization", .ws,
   optTok "is", altTok ["required", "necessary"]]

/-- `authorization\s*not\s*required` (line 56). -/
def pat_nreq2 : List PTok :=
  [.lit "authorization", .ws, .lit "not", .ws, .lit "required"]

/-- `no\s*PA\s*required` (line 57). -/
def pat_nreq3 : List PTok := [.lit "no", .ws, .lit "pa", .ws, .lit "required"]

/-- `notification\s*only` (line 60). -/
def pat_noti1 : List PTok := [.lit "notification", .ws, .lit "only"]

/-- `notify\s*only` (line 61). -/
def pat_noti2 : List PTok := [.lit "notify", .ws, .lit "only"]

/-- `advance\s*notification` (line 62). -/
def pat_noti3 : List PTok := [.lit "advance", .ws, .lit "notification"]

/-- The `auth_patterns` families (lines 47-64), in dict order. -/
def auth_required_toks : List (List PTok) := [pat_req1, pat_req2, pat_req3, pat_req4]
def auth_not_required_toks : List (List PTok) := [pat_nreq1, pat_nreq2, pat_nreq3]
def auth_notification_toks : List (List PTok) := [pat_noti1, pat_noti2, pat_noti3]

/-- `(?:not\s*required|no\s*authorization)\s*(?:if|when)\s*performed\s*in\s*`
`(?:an?\s*)?(?:office|physician['s]?\s*office)` (line 68). -/
def pat_pos_office : List PTok :=
  [.seqAlts [[.lit "not", .ws, .lit "required"], [.lit "no", .ws, .lit "authorization"]],
   .ws, altTok ["if", "when"], .ws, .lit "performed", .ws, .lit "in", .ws,
   .seqAlts [[.lit "an", .ws], [.lit "a", .ws], []],
   .seqAlts [[.lit "office"],
             [.lit "physician", .seqAlts [[.lit "'"], [.lit "s"], []], .ws, .lit "office"]]]

/-- `(?:required|authorization)\s*(?:only\s*)?(?:when|if)\s*`
`(?:requesting\s*service\s*in|performed\s*in)\s*(?:an?\s*)?outpatient\s*hospital`
(line 69). -/
def pat_pos_outpatient : List PTok :=
  [altTok ["required", "authorization"], .ws, optTok "only",
   altTok ["when", "if"], .ws,
   .seqAlts [[.lit "requesting", .ws, .lit "service", .ws, .lit "in"],
             [.lit "performed", .ws, .lit "in"]],
   .ws, .seqAlts [[.lit "an", .ws], [.lit "a", .ws], []],
   .lit "outpatient", .ws, .lit "hospital"]

/-- `site\s*of\s*service\s*(?:will\s*be\s*)?review(?:ed)?` (line 70). -/
def pat_pos_review : List PTok :=
  [.lit "site", .ws, .lit "of", .ws, .lit "service", .ws,
   .seqAlts [[.lit "will", .ws, .lit "be", .ws], []],
   .lit "review", .seqAlts [[.lit "ed"], []]]

/-- `(?:not\s*required|no\s*authorization)\s*for\s*(?:the\s*)?following\s*`
`diagnosis\s*codes?` (line 75). -/
def pat_dx1 : List PTok :=
  [.seqAlts [[.lit "not", .ws, .lit "required"], [.lit "no", .ws, .lit "authorization"]],
   .ws, .lit "for", .ws, optTok "the", .lit "following", .ws,
   .lit "diagnosis", .ws, .lit "code", .seqAlts [[.lit "s"], []]]

/-- `diagnosis\s*codes?\s*(?:that\s*)?(?:exempt|do\s*not\s*require)` (line 76). -/
def pat_dx2 : List PTok :=
  [.lit "diagnosis", .ws, .lit "code", .seqAlts [[.lit "s"], []], .ws,
   optTok "that",
   .seqAlts [[.lit "exempt"], [.lit "do", .ws, .lit "not", .ws, .lit "require"]]]

/-- `(?:exempt|exception)\s*diagnosis\s*codes?` (line 77). -/
def pat_dx3 : List PTok :=
  [altTok ["exempt", "exception"], .ws, .lit "diagnosis", .ws,
   .lit "code", .seqAlts [[.lit "s"], []]]

def diagnosis_exception_toks : List (List PTok) := [pat_dx1, pat_dx2, pat_dx3]

/-- `(?:patients?\s*)?ages?\s*(\d+)\s*(?:and\s*)?(?:older|above|over|\+)`
(line 82). -/
def pat_age_older : List PTok :=
  [.seqAlts [[.lit "patient", .seqAlts [[.lit "s"], []], .ws], []],
   .lit "age", .seqAlts [[.lit "s"], []], .ws, .capDigits, .ws,
   .seqAlts [[.lit "and", .ws], []],
   altTok ["older", "above", "over", "+"]]

/-- `(?:patients?\s*)?(?:under|below)\s*(?:age\s*)?(\d+)` (line 83). -/
def pat_age_under : List PTok :=
  [.seqAlts [[.lit "patient", .seqAlts [[.lit "s"], []], .ws], []],
   altTok ["under", "below"], .ws, optTok "age", .capDigits]

/-- `(?:except|excluding)\s*in\s*([A-Z]{2}(?:,?\s*[A-Z]{2})*)` (line 91). -/
def pat_geo1 : List PTok :=
  [altTok ["except", "excluding"], .ws, .lit "in", .ws, .capStateList]

/-- `(?:all\s*states\s*)?except\s*(?:in\s*)?([^.]+)` (line 92). -/
def pat_geo2 : List PTok :=
  [.seqAlts [[.lit "all", .ws, .lit "states", .ws], []],
   .lit "except", .ws, optTok "in", .capNoDot]

/-- `(?:limited\s*to|only\s*in)\s*([A-Z]{2}(?:,?\s*[A-Z]{2})*)` (line 93). -/
def pat_geo3 : List PTok :=
  [.seqAlts [[.lit "limited", .ws, .lit "to"], [.lit "only", .ws, .lit "in"]],
   .ws, .capStateList]

/-- `except\s*in\s*([^.]+)` (line 94). -/
def pat_geo4 : List PTok := [.lit "except", .ws, .lit "in", .ws, .capNoDot]

def geographic_patterns_toks : List (List PTok) := [pat_geo1, pat_geo2, pat_geo3, pat_geo4]

/-- `(?:required\s*for\s*)?all\s*states[^.]*except\s*(?:in\s*)?([^.]+)`
(line 220). -/
def pat_cond1 : List PTok :=
  [.seqAlts [[.lit "required", .ws, .lit "for", .ws], []],
   .lit "all", .ws, .lit "states", .gapLit "except", .ws, optTok "in", .capNoDot]

/-- `prior\s*authorization\s*(?:is\s*)?required\s*(?:for\s*)?`
`(?:all\s*states\s*)?except\s*(?:in\s*)?([^.]+)` (line 221). -/
def pat_cond2 : List PTok :=
  [.lit "prior", .ws, .lit "authorization", .ws, optTok "is",
   .lit "required", .ws, optTok "for",
   .seqAlts [[.lit "all", .ws, .lit "states", .ws], []],
   .lit "except", .ws, optTok "in", .capNoDot]

/-- `all\s*states[^.]*except\s*in\s*([^.]+)` (line 222). -/
def pat_cond3 : List PTok :=
  [.lit "all", .ws, .lit "states", .gapLit "except", .ws, .lit "in", .ws, .capNoDot]

def all_states_except_toks : List (List PTok) := [pat_cond1, pat_cond2, pat_cond3]

/-! ## `AdvancedPatternExtractor` extraction methods -/

/-- `extract_place_of_service_rules` (lines 97-129). -/
def extract_place_of_service_rules (text : Chars) : List PlaceOfService :=
  (if searchToks pat_pos_office text then
    [{ pos_code := "11", description := "Office", requires_auth := false,
       preferred_setting := true, review_type := some "EXEMPT" }]
   else []) ++
  (if searchToks pat_pos_outpatient text then
    [{ pos_code := "22", description := "Outpatient Hospital", requires_auth := true,
       preferred_setting := false, review_type := some "PRIOR_AUTH" }]
   else []) ++
  (if searchToks pat_pos_review text then
    [{ pos_code := "*", description := "Site of service review required",
       requires_auth := true, preferred_setting := false,
       review_type := some "SITE_OF_SERVICE" }]
   else [])

/-- `extract_diagnosis_exceptions` (lines 131-150): for every match of
every trigger pattern, collect the ICD codes in the 500-character
lookahead after the match; an exception is recorded only when codes are
found. -/
def extract_diagnosis_exceptions (text : Chars) : List DiagnosisException :=
  diagnosis_exception_toks.flatMap fun toks =>
    (finditer toks text).filterMap fun sp =>
      let remaining_text := pySlice text sp.2.1 (sp.2.1 + 500)
      let icd_codes := findallIcd remaining_text
      if icd_codes ≠ [] then
        some { icd_codes := icd_codes
               exception_type := "EXEMPT"
               description := some ("Diagnosis exception: " ++
                 String.mk (pySlice text sp.1 sp.2.1)) }
      else none

/-- `extract_age_restrictions` (lines 152-183): "ages N and older"
matches give `min_age = N` with requirement `REQUIRED` exactly when the
literal `'required'` occurs in the ±50-character window around the
match (a Python slice, so a negative lower bound wraps); "under N"
matches give `max_age = N - 1` with requirement `CONDITIONAL`. -/
def extract_age_restrictions (text : Chars) : List AgeRestriction :=
  ((finditer pat_age_older text).filterMap fun sp =>
    (sp.2.2).map fun ds =>
      let min_age : Int := digitsToNat ds
      let window := lowerChars (pySlice text ((sp.1 : Int) - 50) ((sp.2.1 : Int) + 50))
      let auth_req : AuthRequirement :=
        if containsSub "required".data window then .REQUIRED else .CONDITIONAL
      { min_age := some min_age
        max_age := none
        age_units := "YEARS"
        special_population := some (if min_age ≥ 18 then "ADULT" else "PEDIATRIC")
        auth_requirement := auth_req }) ++
  ((finditer pat_age_under text).filterMap fun sp =>
    (sp.2.2).map fun ds =>
      let max_age : Int := (digitsToNat ds : Int) - 1
      { min_age := none
        max_age := some max_age
        age_units := "YEARS"
        special_population := some "PEDIATRIC"
        auth_requirement := .CONDITIONAL })

/-- The state-name → abbreviation table (lines 191-195 and 236-240),
in dict insertion order. -/
def state_mapping : List (String × String) :=
  [("alaska", "AK"), ("massachusetts", "MA"), ("puerto rico", "PR"),
   ("rhode island", "RI"), ("texas", "TX"), ("utah", "UT"),
   ("virgin islands", "VI"), ("wisconsin", "WI")]

/-- `extract_geographic_exceptions` (lines 185-212): for every match of
every geographic pattern, append every `\b[A-Z]{2}\b` token of the
captured clause — with **no** validation against the canonical state
set — and every mapped state name contained in the clause's
lowercasing; everything goes to `excluded_states` (the source never
appends to `included_states`), both deduplicated (`list(set(...))`,
modelled by `dedup`: set enumeration order is unspecified and only
membership is used below). -/
def extract_geographic_exceptions (text : Chars) : List String × List String :=
  let excluded_states := geographic_patterns_toks.flatMap fun toks =>
    (finditerCaps toks text).flatMap fun cap =>
      findallCaps2 cap ++
      (state_mapping.filterMap fun p =>
        if containsSub p.1.data (lowerChars cap) then some p.2 else none)
  (excluded_states.dedup, ([] : List String).dedup)

/-- `extract_conditional_logic` (lines 214-258): every match of an
"all states except …" pattern whose clause names at least one state
yields an `IF_THEN` conditional asserting `REQUIRED` outside the named
states. -/
def extract_conditional_logic (text : Chars) : List ConditionalLogic :=
  all_states_except_toks.flatMap fun toks =>
    (finditerCaps toks text).filterMap fun cap =>
      let excluded_states := findallCaps2 cap ++
        (state_mapping.filterMap fun p =>
          if containsSub p.1.data (lowerChars cap) then some p.2 else none)
      if excluded_states ≠ [] then
        some { condition_type := "IF_THEN"
               conditions := [.state_not_in excluded_states.dedup,
                              .auth_required true]
               result_auth_requirement := .REQUIRED
               priority := 1 }
      else none

/-! ## `parse_markdown_to_enhanced_rules` (`uhc_rules_enhanced.py`
lines 261-395) -/

/-- The per-section rule assembly (lines 313-381): code extraction, the
first matching authorization family in order
required → not-required → notification-only (default `CONDITIONAL`),
the enhanced component extractors, and the first non-blank line without
five consecutive digits as the service name.  `current_category` and
`current_page` are initialised to `None` / `1` and never updated in
this function, so `category = none` and `source_page = 1`.  Returns
`none` when the section yields no codes. -/
def enhanced_section_rule (section_text : Chars) (start_line : Int)
    (source_file : String) : Option EnhancedRule :=
  let cpt_matches := findallFiveDigit section_text
  let hcpcs_matches := findallHcpcs section_text
  let all_codes := cpt_matches ++ hcpcs_matches
  if all_codes = [] then none
  else
    let auth_requirement : AuthRequirement :=
      if auth_required_toks.any (fun t => searchToks t section_text) then .REQUIRED
      else if auth_not_required_toks.any (fun t => searchToks t section_text) then
        .NOT_REQUIRED
      else if auth_notification_toks.any (fun t => searchToks t section_text) then
        .NOTIFICATION_ONLY
      else .CONDITIONAL
    let pos_rules := extract_place_of_service_rules section_text
    let dx_exceptions := extract_diagnosis_exceptions section_text
    let ages := extract_age_restrictions section_text
    let geo := extract_geographic_exceptions section_text
    let cond := extract_conditional_logic section_text
    let service_name : Option String :=
      ((splitLines section_text).find? fun line =>
        pyStrip line ≠ [] && !hasFiveDigitsAnywhere line).map fun l =>
          String.mk (pyStrip l)
    some { rule_type := .CPT_BASED
           auth_requirement := auth_requirement
           payer := "UnitedHealthcare"
           category := none
           service := some (service_name.getD "Extracted Rule")
           cpt_codes := all_codes
           place_of_service_restrictions := pos_rules
           diagnosis_exceptions := dx_exceptions
           age_restrictions := ages
           conditional_logic := cond
           excluded_states := geo.1
           included_states := geo.2
           source_file := source_file
           source_page := 1
           source_line := some start_line
           confidence_score := some q085 }

/-- The section-building loop of `parse_markdown_to_enhanced_rules`
(lines 283-303): accumulate lines, closing a section at the last line,
at a blank line once more than ten lines are accumulated, or at a long
all-caps line; blank sections are dropped.  Returns
`(text, start_line)` pairs. -/
def build_text_sections (lines : List Chars) : List (Chars × Int) :=
  let step := fun (acc : List (Chars × Int) × List Chars) (p : Nat × Chars) =>
    let i := p.1
    let line := p.2
    let current_section := acc.2 ++ [line]
    let brk :=
      i == lines.length - 1 ||
      (pyStrip line = [] && current_section.length > 10) ||
      (pyIsUpper (pyStrip line) && (pyStrip line).length > 20)
    if brk then
      let section_text := joinLines current_section
      if pyStrip section_text ≠ [] then
        (acc.1 ++ [(section_text, (i : Int) - current_section.length + 1)], [])
      else (acc.1, [])
    else (acc.1, current_section)
  (lines.enum.foldl step ([], [])).1

/-- `parse_markdown_to_enhanced_rules` (lines 261-395): build the text
sections, append the whole text as one extra section, and assemble a
rule from every section that yields codes. -/
def parse_markdown_to_enhanced_rules (markdown_text : Chars)
    (source_file : String) : List EnhancedRule :=
  let lines := splitLines markdown_text
  let text_sections := build_text_sections lines ++ [(markdown_text, 1)]
  text_sections.filterMap fun sec =>
    enhanced_section_rule sec.1 sec.2 source_file

/-! ## Concrete instances used by the claim theorems -/

/-- The spec's conditional-exception scenario: the exception sentence
plus the code `12345` on the next line. -/
def c1text : Chars :=
  "Prior authorization required for all states except Alaska, Texas\n12345".data

/-- The rules the enhanced parser extracts from `c1text` (the line loop
yields one section, and the whole text is appended as a second section,
so two identical rules come back). -/
def c1rules : List EnhancedRule := parse_markdown_to_enhanced_rules c1text "uhc.pdf"

/-- A geographic-exception sentence naming the non-state token `XX`. -/
def c2text : Chars := "Prior authorization required except in XX\n12345".data

/-- A loaded basic rule for the empty-query evaluations. -/
def c3rule : Rule :=
  { rule_type := .CPT_BASED
    auth_requirement := .REQUIRED
    payer := "UnitedHealthcare"
    cpt_codes := ["29826"]
    source_file := "uhc.pdf"
    source_page := 1 }

/-- A mergeable rule with confidence `0.8`. -/
def c4A : Rule :=
  { rule_type := .CPT_BASED
    auth_requirement := .REQUIRED
    payer := "UnitedHealthcare"
    category := some "ORTHOPEDIC"
    service := some "Arthroscopy"
    cpt_codes := ["29826", "29827"]
    excluded_states := ["CA"]
    source_file := "uhc.pdf"
    source_page := 1
    confidence_score := some q08 }

/-- Same grouping key as `c4A`, but confidence `0.0` (falsy in
Python). -/
def c4B : Rule :=
  { c4A with
    cpt_codes := ["29827", "29828"]
    icd_codes := ["M75"]
    excluded_states := ["CA", "NY"]
    confidence_score := some 0 }

/-- Witness rules for the amended merge claim (both confidences
truthy). -/
def c4C : Rule := { c4A with confidence_score := some q07 }
def c4D : Rule :=
  { c4A with cpt_codes := ["29827", "29828"], confidence_score := some q05 }

/-- A matched rule whose requirement is `CONDITIONAL`. -/
def c5rule : Rule :=
  { rule_type := .CPT_BASED
    auth_requirement := .CONDITIONAL
    payer := "UnitedHealthcare"
    cpt_codes := ["12345"]
    source_file := "uhc.pdf"
    source_page := 1 }

def c5patient : PatientInfo := { payer := "UnitedHealthcare", state := "CA" }

def c5proc : ProcedureInfo := { cpt_codes := ["12345"] }

/-- Base rule for the hyperedge round-trip instances. -/
def c6base : Rule :=
  { rule_type := .CPT_BASED
    auth_requirement := .REQUIRED
    payer := "UnitedHealthcare"
    cpt_codes := ["29826"]
    source_file := "uhc.pdf"
    source_page := 12
    source_line := some 3 }

/-- `CA` as an excluded state. -/
def c6r1 : Rule := { c6base with excluded_states := ["CA"] }

/-- `CA` as an included state: exports to the same hyperedge as
`c6r1`. -/
def c6r2 : Rule := { c6base with included_states := ["CA"] }

/-- A section text containing a duplicated 5-digit token. -/
def c7text : Chars := "Prior authorization required 12345 12345".data

/-- A chunk whose hints carry procedure codes, as
`_create_rule_from_hints` receives one when the structured parser has
thrown on the chunk (e.g. because the parser's rule-saving step raised
an `OSError`). -/
def c9chunk : ProcessedChunk :=
  { chunk_id := "uhc_12ab34cd", content_type := "procedure_list"
    extraction_hints :=
      extract_hints "Arthroscopy procedures 29826, 29827".data "procedure_list"
    confidence_score := q09 }

/-- A chunk whose hints carry no codes. -/
def c9chunkNoCodes : ProcessedChunk :=
  { chunk_id := "uhc_99ff00aa", content_type := "context_info"
    extraction_hints := extract_hints "General information only".data "context_info"
    confidence_score := q05 }

/-- The conditional entry both conditional-logic patterns produce on
the `c1text` scenario. -/
def c1cond : ConditionalLogic :=
  { condition_type := "IF_THEN"
    conditions := [.state_not_in ["AK", "TX"], .auth_required true]
    result_auth_requirement := .REQUIRED
    priority := 1 }

/-- The content-type the **claim** ascribes to the classifier: the
argmax of the four scores with the fixed priority
AuthorizationRule > GeographicException > ProcedureList > ContextInfo. -/
def spec_classifier_type (a e c g : Nat) : String :=
  if a * 2 + c ≥ e * 2 + g ∧ a * 2 + c ≥ c * 2 ∧ a * 2 + c ≥ 1 then
    "authorization_rule"
  else if e * 2 + g ≥ c * 2 ∧ e * 2 + g ≥ 1 then "geographic_exception"
  else if c * 2 ≥ 1 then "procedure_list"
  else "context_info"

/-- The confidence the **claim** ascribes to the classifier:
`min(argmaxScore/totalScore, 0.95)`, increased by `0.2` (capped at
`0.95`) whenever the argmax score is at least 3. -/
def spec_classifier_confidence (a e c g : Nat) : ℚ :=
  let m := max (max (max (a * 2 + c) (e * 2 + g)) (c * 2)) 1
  let total := a * 2 + c + (e * 2 + g) + c * 2 + 1
  let conf := min ((m : ℚ) / (total : ℚ)) q095
  if m ≥ 3 then min (conf + q02) q095 else conf

/-! ## Supporting lemmas -/

/-- Deduplication does not change the underlying finite set. -/
theorem dedup_toFinset {α : Type} [DecidableEq α] (l : List α) :
    l.dedup.toFinset = l.toFinset := by
  ext a
  simp [List.mem_toFinset, List.mem_dedup]

/-- `merge_into` rewrites only non-key fields. -/
theorem merge_into_key (e r : Rule) : rule_key (merge_into e r) = rule_key e := rfl

/-- The keys of the merged-rules dict after one insertion. -/
theorem merge_insert_keys (acc : List Rule) (r : Rule) :
    (merge_insert acc r).map rule_key =
      if rule_key r ∈ acc.map rule_key then acc.map rule_key
      else acc.map rule_key ++ [rule_key r] := by
  induction acc with
  | nil => simp [merge_insert]
  | cons e rest ih =>
    by_cases h : rule_key e = rule_key r
    · simp [merge_insert, h, merge_into_key]
    · have h' : ¬rule_key r = rule_key e := fun hh => h hh.symm
      simp only [merge_insert, if_neg h, List.map_cons, ih, List.mem_cons, h',
        false_or]
      by_cases hm : rule_key r ∈ rest.map rule_key
      · simp [hm]
      · simp [hm]

/-- Grouping-key uniqueness is an invariant of the merged output. -/
theorem merge_related_rules_keys_nodup (rules : List Rule) :
    ((merge_related_rules rules).map rule_key).Nodup := by
  suffices h : ∀ acc : List Rule, (acc.map rule_key).Nodup →
      ((List.foldl merge_insert acc rules).map rule_key).Nodup from
    h [] (by simp)
  induction rules with
  | nil => intro acc hacc; simp only [List.foldl_nil]; exact hacc
  | cons r rest ih =>
    intro acc hacc
    rw [List.foldl_cons]
    refine ih _ ?_
    rw [merge_insert_keys]
    by_cases hm : rule_key r ∈ acc.map rule_key
    · simpa [hm] using hacc
    · rw [if_neg hm, ← List.concat_eq_append]
      exact hacc.concat hm

/-! ## Claim theorems -/

set_option maxRecDepth 100000

theorem q02_eq : q02 = 0.2 := by
  rw [q02, Rat.mk'_eq_divInt, Rat.divInt_eq_div]; norm_num

theorem q03_eq : q03 = 0.3 := by
  rw [q03, Rat.mk'_eq_divInt, Rat.divInt_eq_div]; norm_num

theorem q05_eq : q05 = 0.5 := by
  rw [q05, Rat.mk'_eq_divInt, Rat.divInt_eq_div]; norm_num

theorem q06_eq : q06 = 0.6 := by
  rw [q06, Rat.mk'_eq_divInt, Rat.divInt_eq_div]; norm_num

theorem q07_eq : q07 = 0.7 := by
  rw [q07, Rat.mk'_eq_divInt, Rat.divInt_eq_div]; norm_num

theorem q08_eq : q08 = 0.8 := by
  rw [q08, Rat.mk'_eq_divInt, Rat.divInt_eq_div]; norm_num

theorem q085_eq : q085 = 0.85 := by
  rw [q085, Rat.mk'_eq_divInt, Rat.divInt_eq_div]; norm_num

theorem q09_eq : q09 = 0.9 := by
  rw [q09, Rat.mk'_eq_divInt, Rat.divInt_eq_div]; norm_num

theorem q095_eq : q095 = 0.95 := by
  rw [q095, Rat.mk'_eq_divInt, Rat.divInt_eq_div]; norm_num

/-- The running-best fold of `_classify_content`'s
`max(scores.keys(), key=…)` equals the priority-ordered argmax. -/
theorem classify_fold (sA sG sP : Nat) :
    List.foldl (fun (b c : String × Nat) => if c.2 > b.2 then c else b)
      ("authorization_rule", sA)
      [("geographic_exception", sG), ("procedure_list", sP), ("context_info", 1)] =
    if sA ≥ sG ∧ sA ≥ sP ∧ sA ≥ 1 then ("authorization_rule", sA)
    else if sG ≥ sP ∧ sG ≥ 1 then ("geographic_exception", sG)
    else if sP ≥ 1 then ("procedure_list", sP)
    else ("context_info", 1) := by
  simp only [List.foldl_cons, List.foldl_nil]
  split_ifs <;> first | rfl | (exfalso; omega)

/-- **C4** counterexample: two rules share the grouping key, both carry
a confidence score (`0.8` and `0.0`), yet the merged rule's confidence
is `0.8`, not `min(0.8, 0.0) = 0.0` — the source's truthiness test
`if rule.confidence_score and existing.confidence_score:` skips the
minimum when either score is `0.0` (or `None`). -/
theorem C4_counterexample :
    rule_key c4A = rule_key c4B ∧
    c4A.confidence_score = some q08 ∧
    c4B.confidence_score = some 0 ∧
    min q08 (0 : ℚ) = 0 ∧
    (merge_related_rules [c4A, c4B]).map Rule.confidence_score = [some q08] ∧
    some q08 ≠ (some (0 : ℚ)) := by decide

/-- **C4** (amended): merging two rules that share the grouping key and
whose confidence scores are both present and nonzero yields one rule
whose four code/state lists are exactly the deduplicated unions (so the
procedure-code count is `|A ∪ B|`), with confidence `min`; and the
merged output of any rule list has pairwise-distinct grouping keys. -/
theorem C4_merge_amended (A B : Rule) (hk : rule_key A = rule_key B)
    (a b : ℚ) (ha : A.confidence_score = some a) (hb : B.confidence_score = some b)
    (ha0 : a ≠ 0) (hb0 : b ≠ 0) :
    merge_related_rules [A, B] = [merge_into A B] ∧
    (merge_into A B).cpt_codes.toFinset = A.cpt_codes.toFinset ∪ B.cpt_codes.toFinset ∧
    (merge_into A B).cpt_codes.length =
      (A.cpt_codes.toFinset ∪ B.cpt_codes.toFinset).card ∧
    (merge_into A B).icd_codes.toFinset = A.icd_codes.toFinset ∪ B.icd_codes.toFinset ∧
    (merge_into A B).excluded_states.toFinset =
      A.excluded_states.toFinset ∪ B.excluded_states.toFinset ∧
    (merge_into A B).included_states.toFinset =
      A.included_states.toFinset ∪ B.included_states.toFinset ∧
    (merge_into A B).confidence_score = some (min a b) ∧
    ∀ rules : List Rule, ((merge_related_rules rules).map rule_key).Nodup := by
  refine ⟨?_, ?_, ?_, ?_, ?_, ?_, ?_, merge_related_rules_keys_nodup⟩
  · simp [merge_related_rules, merge_insert, hk]
  · simp [merge_into, dedup_toFinset, List.toFinset_append]
  · rw [show (merge_into A B).cpt_codes = (A.cpt_codes ++ B.cpt_codes).dedup from rfl,
      ← List.toFinset_append, List.card_toFinset]
  · simp [merge_into, dedup_toFinset, List.toFinset_append]
  · simp [merge_into, dedup_toFinset, List.toFinset_append]
  · simp [merge_into, dedup_toFinset, List.toFinset_append]
  · simp [merge_into, ha, hb, ha0, hb0]

/-- **C4** witness: the amended merge theorem applied to the concrete
rules `c4C` and `c4D` (confidences `0.7` and `0.5`). -/
theorem C4_merge_witness :
    merge_related_rules [c4C, c4D] = [merge_into c4C c4D] ∧
    (merge_into c4C c4D).cpt_codes.length =
      (c4C.cpt_codes.toFinset ∪ c4D.cpt_codes.toFinset).card ∧
    (merge_into c4C c4D).confidence_score = some (min q07 q05) :=
  ⟨(C4_merge_amended c4C c4D rfl q07 q05 rfl rfl (by decide) (by decide)).1,
   (C4_merge_amended c4C c4D rfl q07 q05 rfl rfl (by decide) (by decide)).2.2.1,
   (C4_merge_amended c4C c4D rfl q07 q05 rfl rfl (by decide) (by decide)).2.2.2.2.2.2.1⟩

/-- A fold whose step ignores the list element returns its initial
value. -/
theorem foldl_const {α β : Type} (l : List β) (init : α) :
    l.foldl (fun acc _ => acc) init = init := by
  induction l generalizing init with
  | nil => rfl
  | cons x xs ih => simp only [List.foldl_cons]; exact ih init

/-- **C6** counterexample: `c6r1` (CA excluded) and `c6r2` (CA
included) export to the *same* hyperedge — `to_hyperedge` merges the
two state lists into one `states` node — so no importer whatsoever can
recover `excludedStates` from the view, and the repository contains no
importer at all; the round-trip identity fails as claimed for
`excludedStates`. -/
theorem C6_counterexample :
    c6r1.to_hyperedge = c6r2.to_hyperedge ∧
    c6r1.excluded_states ≠ c6r2.excluded_states ∧
    ∀ imp : Hyperedge → Rule,
      ¬((imp c6r1.to_hyperedge).excluded_states = c6r1.excluded_states ∧
        (imp c6r2.to_hyperedge).excluded_states = c6r2.excluded_states) := by
  refine ⟨by decide, by decide, fun imp h => ?_⟩
  have he : c6r1.to_hyperedge = c6r2.to_hyperedge := by decide
  have h1 := h.1
  rw [he] at h1
  exact absurd (h1.symm.trans h.2) (by decide)

/-- **C6** (amended): the hyperedge view carries `procedureCodes`,
`diagnosisCodes` and the three provenance fields verbatim, so the
spec-modelled importer recovers them exactly; `excludedStates` is
recovered only when the rule has no `includedStates`, because the view
merges the two lists. -/
theorem C6_roundtrip_amended (r : Rule) :
    (from_hyperedge r.to_hyperedge).cpt_codes = r.cpt_codes ∧
    (from_hyperedge r.to_hyperedge).icd_codes = r.icd_codes ∧
    (from_hyperedge r.to_hyperedge).source_file = r.source_file ∧
    (from_hyperedge r.to_hyperedge).source_page = r.source_page ∧
    (from_hyperedge r.to_hyperedge).source_line = r.source_line ∧
    (r.included_states = [] →
      (from_hyperedge r.to_hyperedge).excluded_states = r.excluded_states) := by
  refine ⟨rfl, rfl, rfl, rfl, rfl, fun h => ?_⟩
  show r.excluded_states ++ r.included_states = r.excluded_states
  rw [h, List.append_nil]

/-- **C6** witness: the amended round-trip at `c6r1` (which has no
included states). -/
theorem C6_roundtrip_witness :
    (from_hyperedge c6r1.to_hyperedge).cpt_codes = c6r1.cpt_codes ∧
    (from_hyperedge c6r1.to_hyperedge).source_page = c6r1.source_page ∧
    (from_hyperedge c6r1.to_hyperedge).excluded_states = c6r1.excluded_states :=
  ⟨(C6_roundtrip_amended c6r1).1, (C6_roundtrip_amended c6r1).2.2.2.1,
   (C6_roundtrip_amended c6r1).2.2.2.2.2 rfl⟩

/-- **C3** counterexample: a query with no procedure codes is *not*
rejected — the loader returns the silent no-applicable-rules default
(`auth_required = False`, confidence `0.5`) and the basic REST endpoint
returns `NOT_REQUIRED` with confidence `0.3`; no `EvaluationInputError`
(or any other error path) exists. -/
theorem C3_counterexample :
    loader_evaluate_authorization true [.basic c3rule] [] {} =
      some { auth_required := false
             reason := "No applicable rules found"
             confidence := q05
             evaluation_method := "none"
             rules_evaluated := none } ∧
    evaluate_authorization_endpoint [c3rule] { cpt_codes := [] } =
      { requires_authorization := .NOT_REQUIRED
        confidence_score := q03
        applicable_rules := []
        reasoning_path := ["Searching for rules matching CPT codes: []",
          "No matching rules found - defaulting to not required"]
        geographic_exceptions := [] } := by decide

/-- **C3** (amended): for *every* rule set, configuration and context,
an empty procedure-code query silently produces the default decision on
both evaluation paths (it never raises). -/
theorem C3_empty_query_default (enable : Bool) (loaded : List LoadedRule)
    (ctx : EvalContext) (rules : List Rule) (st : Option String)
    (icd : Option (List String)) (age : Option Int) (setting : Option String) :
    loader_evaluate_authorization enable loaded [] ctx =
      some { auth_required := false
             reason := "No applicable rules found"
             confidence := q05
             evaluation_method := "none"
             rules_evaluated := none } ∧
    evaluate_authorization_endpoint rules
      { cpt_codes := [], icd_codes := icd, patient_age := age, state := st
        service_setting := setting } =
      { requires_authorization := .NOT_REQUIRED
        confidence_score := q03
        applicable_rules := []
        reasoning_path := ["Searching for rules matching CPT codes: []",
          "No matching rules found - defaulting to not required"]
        geographic_exceptions := [] } := by
  constructor
  · simp [loader_evaluate_authorization]
  · simp only [evaluate_authorization_endpoint, List.any_nil, Bool.false_eq_true,
      if_false, foldl_const]
    simp only [pyReprStrList, List.map_nil]
    decide

/-- **C5**: the evaluation code paths disagree on `CONDITIONAL`: the
interactive path reports authorization required (type `CONDITIONAL`)
for a matched conditional rule, while the loader's basic evaluation
(and the enhanced rule's base evaluation) report `auth_required` only
for a `REQUIRED` requirement — the final component characterises the
basic path for every rule. -/
theorem C5_paths_disagree :
    (interactive_evaluate_authorization [c5rule] c5patient c5proc).map
        (fun ev => (ev.authorization_required, ev.authorization_type)) =
      .ok (true, "CONDITIONAL") ∧
    c5rule.auth_requirement = .CONDITIONAL ∧
    loader_evaluate_authorization true [.basic c5rule] ["12345"] {} =
      some (basic_evaluation [.basic c5rule]) ∧
    (basic_evaluation [.basic c5rule]).auth_required = false ∧
    ((EnhancedRule.from_basic_rule c5rule).evaluate_authorization {}).auth_required
      = false ∧
    (∀ r : Rule, (basic_evaluation [.basic r]).auth_required = true ↔
      r.auth_requirement = .REQUIRED) ∧
    (∀ r : Rule,
      ((EnhancedRule.from_basic_rule r).evaluate_authorization {}).auth_required =
        (r.auth_requirement == .REQUIRED)) := by
  refine ⟨by decide, by decide, by decide, by decide, by decide, fun r => ?_,
    fun r => rfl⟩
  simp [basic_evaluation, LoadedRule.auth_requirement]

/-- **C9**: the hint-fallback path is broken — `c9chunk`'s hints do
contain procedure codes, yet `_create_rule_from_hints` raises a
pydantic `ValidationError` (`Rule.source_page` is required but not
among the keyword arguments), so the promised minimal rule with
confidence `0.9 * 0.6` is never produced; with no codes in the hints
the function returns no rules, as specified. -/
theorem C9_hint_fallback_raises :
    c9chunk.extraction_hints.cpt_codes = some ["29826", "29827"] ∧
    create_rule_from_hints c9chunk "uhc.pdf" =
      .error (.validationError "source_page") ∧
    create_rule_from_hints c9chunkNoCodes "uhc.pdf" = .ok [] := by decide

/-- **C10**: the authorization requirement passed to the fallback
`Rule(...)` constructor is `REQUIRED` exactly when the chunk's
`auth_requirement` hint equals `'REQUIRED'`, is `NOT_REQUIRED` in every
other case — including a missing hint — and is never `CONDITIONAL` or
`NOTIFICATION_ONLY`. -/
theorem C10_fallback_requirement (chunk : ProcessedChunk) (sf : String) :
    ((create_rule_from_hints_args chunk sf).auth_requirement =
        some AuthRequirement.REQUIRED ↔
      chunk.extraction_hints.auth_requirement = some "REQUIRED") ∧
    (chunk.extraction_hints.auth_requirement ≠ some "REQUIRED" →
      (create_rule_from_hints_args chunk sf).auth_requirement =
        some AuthRequirement.NOT_REQUIRED) ∧
    ((create_rule_from_hints_args chunk sf).auth_requirement =
        some AuthRequirement.REQUIRED ∨
      (create_rule_from_hints_args chunk sf).auth_requirement =
        some AuthRequirement.NOT_REQUIRED) := by
  by_cases h : chunk.extraction_hints.auth_requirement = some "REQUIRED" <;>
    simp [create_rule_from_hints_args, h]

/-- **C10** witness: a chunk whose hints carry no `auth_requirement`
key at all gets `NOT_REQUIRED`. -/
theorem C10_fallback_requirement_witness :
    (create_rule_from_hints_args c9chunkNoCodes "uhc.pdf").auth_requirement =
      some AuthRequirement.NOT_REQUIRED :=
  (C10_fallback_requirement c9chunkNoCodes "uhc.pdf").2.1 (by decide)

/-- **C1** counterexample: on the spec's scenario the query
`{procedureCodes:["12345"], state:"TX"}` does return
`authRequired = false`, but the reasoning cites the **geographic
exclusion**, not the conditional exception: the extractor also appended
Alaska and Texas to `excludedStates`, the geographic branch
short-circuits first during evaluation, and no produced string mentions
the conditional logic (which no evaluation path reads). -/
theorem C1_counterexample :
    (c1rules.map fun r => r.evaluate_authorization { patient_state := some "TX" }) =
      [{ auth_required := false, reason := "Geographic exclusion: TX", confidence := 1 },
       { auth_required := false, reason := "Geographic exclusion: TX", confidence := 1 }] ∧
    loader_evaluate_authorization true (c1rules.map LoadedRule.enhanced) ["12345"]
        { patient_state := some "TX" } =
      some { auth_required := false
             reason := "Geographic exclusion: TX"
             confidence := 1
             evaluation_method := "enhanced"
             rules_evaluated := some 2 } ∧
    containsSub "conditional".data
      (lowerChars "Geographic exclusion: TX".data) = false := by
  decide

/-- **C1** (amended): the scenario text yields rules with the code
`12345`, requirement `REQUIRED`, the conditional exception **and** the
named states appended to `excludedStates`; evaluating at `TX` returns
`authRequired = false` citing the geographic exclusion, and the
evaluation is invariant under the rule's `conditional_logic` (the
engine never consults it). -/
theorem C1_amended :
    c1rules.map EnhancedRule.cpt_codes = [["12345"], ["12345"]] ∧
    c1rules.map EnhancedRule.auth_requirement = [.REQUIRED, .REQUIRED] ∧
    c1rules.map EnhancedRule.conditional_logic =
      [[c1cond, c1cond], [c1cond, c1cond]] ∧
    c1rules.map EnhancedRule.excluded_states = [["AK", "TX"], ["AK", "TX"]] ∧
    (c1rules.map fun r =>
      (r.evaluate_authorization { patient_state := some "TX" }).auth_required) =
      [false, false] ∧
    (∀ (r : EnhancedRule) (ctx : EvalContext) (cl : List ConditionalLogic),
      EnhancedRule.evaluate_authorization { r with conditional_logic := cl } ctx =
        EnhancedRule.evaluate_authorization r ctx) := by
  refine ⟨by decide, by decide, by decide, by decide, by decide, fun r ctx cl => rfl⟩

/-- **C2** counterexample: the captured two-letter token `XX` — not a
member of the canonical state/territory set — is accepted without
validation: it lands both in the extractor's `excludedStates` and in
the assembled rule's `excludedStates`. -/
theorem C2_counterexample :
    "XX" ∈ (extract_geographic_exceptions c2text).1 ∧
    "XX" ∉ valid_states ∧
    (enhanced_section_rule c2text 1 "uhc.pdf").map EnhancedRule.excluded_states =
      some ["XX"] := by decide

/-- **C2** (amended): the claimed canonical-membership guarantee holds
on the fixed-alternation capture paths and in the entity validator, but
not on the enhanced extractor's free capture.  Every token captured by
a state-code alternation pattern (the chunker's hint states, the basic
parser's `state_pattern`) is a member of its alternation list — hence
canonical by construction — and `State.validate_state_code` accepts
only canonical codes (plus `"ALL"`).  The enhanced extractor's
`\b([A-Z]{2})\b` capture performs no validation, so the non-state token
`XX` reaches `excludedStates`; its `includedStates` output is always
empty (the source never appends to it), so for `includedStates` the
claim holds vacuously there. -/
theorem C2_amended :
    (∀ (codes : List String) (s : Chars) (c : String),
      c ∈ findallStateCodes codes s → c ∈ codes) ∧
    (∀ s : Chars, (extract_geographic_exceptions s).2 = []) ∧
    (∀ v r : String, validate_state_code v = .ok r →
      r ∈ valid_states ∨ r = "ALL") ∧
    (extract_geographic_exceptions c2text).1 = ["XX"] ∧
    validate_state_code "XX" = .error "Invalid state code: XX" ∧
    validate_state_code "tx" = .ok "TX" := by
  refine ⟨?_, fun s => rfl, ?_, by decide, by decide, by decide⟩
  · intro codes s c hc
    exact of_decide_eq_true (List.mem_filter.mp hc).2
  · intro v r h
    simp only [validate_state_code] at h
    split at h
    case isTrue hcond =>
      cases h
      simpa [Bool.or_eq_true, decide_eq_true_eq, beq_iff_eq] using hcond
    case isFalse hcond => cases h

/-- **C2** witness: the amended theorem's universal components at
concrete inputs — `TX` captured by the chunker's alternation pattern is
a listed (canonical) code, and the validator's acceptance of `"tx"`
lands in the canonical set. -/
theorem C2_amended_witness :
    "TX" ∈ statePattern56 ∧ ("TX" ∈ valid_states ∨ "TX" = "ALL") :=
  ⟨C2_amended.1 statePattern56 "except in TX\n12345".data "TX" (by decide),
   C2_amended.2.2.1 "tx" "TX" (by decide)⟩

/-- **C7** counterexample: `12345` occurs twice in `c7text` and the
enhanced parser's rules carry it **twice** — `re.findall` keeps
duplicates, the section assembly never deduplicates, and the merge
step's dedup only runs when a second rule shares the grouping key. -/
theorem C7_counterexample :
    findallFiveDigit c7text = ["12345", "12345"] ∧
    (enhanced_section_rule c7text 1 "uhc.pdf").map EnhancedRule.cpt_codes =
      some ["12345", "12345"] ∧
    (parse_markdown_to_enhanced_rules c7text "uhc.pdf").map EnhancedRule.cpt_codes =
      [["12345", "12345"], ["12345", "12345"]] ∧
    List.count "12345" ["12345", "12345"] ≠ 1 := by decide

/-- **C7** (amended): the chunker's extraction hints *do* deduplicate:
every 5-digit token found in the content appears exactly once in the
hint code set, whatever the content type. -/
theorem C7_hints_unique (content : Chars) (c : String) (ct : String)
    (h : c ∈ findallFiveDigit content) :
    ((extract_hints content ct).cpt_codes.getD []).count c = 1 := by
  have hmem : c ∈ findallFiveDigit content ++ findallHcpcs content :=
    List.mem_append_left _ h
  have hne : findallFiveDigit content ++ findallHcpcs content ≠ [] :=
    List.ne_nil_of_mem hmem
  unfold extract_hints
  split <;>
    simp only [if_pos hne, Option.getD_some, List.count_dedup, hmem, if_pos]

/-- **C7** witness: the duplicated token of `c7text` appears exactly
once in the chunker's hints. -/
theorem C7_hints_unique_witness :
    ((extract_hints c7text "authorization_rule").cpt_codes.getD []).count "12345"
      = 1 :=
  C7_hints_unique c7text "12345" "authorization_rule" (by decide)

/-- **C8** counterexample: on a section matching no pattern at all
(`"hello world"`), the classifier returns confidence `0.5`, not the
claimed `min(argmaxScore/totalScore, 0.95) = min(1/1, 0.95) = 0.95` —
the source falls back to a flat default whenever `total_matches ≤ 1`. -/
theorem C8_counterexample :
    classify_content "hello world".data = ("context_info", q05) ∧
    spec_classifier_confidence 0 0 0 0 = q095 ∧
    q05 ≠ q095 := by
  refine ⟨by decide, ?_, by decide⟩
  show min ((1 : ℚ) / (1 : ℚ)) q095 = q095
  rw [q095_eq]; norm_num

/-- **C8** (amended): the classifier's scores are
`authRule = 2·auth + code`, `geoException = 2·exc + geo`,
`procedureList = 2·code`, `contextInfo = 1`; the selected type is the
priority argmax exactly as claimed, and the confidence is exactly the
claimed `min(argmax/total, 0.95)` (with the `≥ 3` boost) **except**
when no pattern matched (all counts zero), where the source returns the
flat `0.5` while the claimed formula gives `0.95`. -/
theorem C8_classifier (a e c g : Nat) :
    (classify_scores a e c g).1 = spec_classifier_type a e c g ∧
    (¬(a = 0 ∧ e = 0 ∧ c = 0 ∧ g = 0) →
      (classify_scores a e c g).2 = spec_classifier_confidence a e c g) ∧
    (a = 0 ∧ e = 0 ∧ c = 0 ∧ g = 0 →
      (classify_scores a e c g).2 = q05) := by
  refine ⟨?_, ?_, ?_⟩
  · simp only [classify_scores]
    rw [classify_fold]
    simp only [spec_classifier_type, apply_ite (f := Prod.fst)]
  · intro h
    simp only [classify_scores, spec_classifier_confidence]
    rw [classify_fold]
    have htot : (a * 2 + c) + ((e * 2 + g) + (c * 2 + 1)) > 1 := by omega
    have hm2 : (if a * 2 + c ≥ e * 2 + g ∧ a * 2 + c ≥ c * 2 ∧ a * 2 + c ≥ 1 then
          (("authorization_rule" : String), a * 2 + c)
        else if e * 2 + g ≥ c * 2 ∧ e * 2 + g ≥ 1 then
          ("geographic_exception", e * 2 + g)
        else if c * 2 ≥ 1 then ("procedure_list", c * 2)
        else ("context_info", 1)).2 =
        max (max (max (a * 2 + c) (e * 2 + g)) (c * 2)) 1 := by
      split_ifs <;> simp <;> omega
    simp only [List.map_cons, List.map_nil, List.sum_cons, List.sum_nil, hm2]
    have harr : a * 2 + c + (e * 2 + g + (c * 2 + (1 + 0))) =
        a * 2 + c + (e * 2 + g) + c * 2 + 1 := by omega
    rw [harr, if_pos (show a * 2 + c + (e * 2 + g) + c * 2 + 1 > 1 by omega)]
  · rintro ⟨rfl, rfl, rfl, rfl⟩
    decide

/-- **C8** witness: the amended classifier theorem at counts
`(auth, exc, code, geo) = (1, 0, 2, 0)`. -/
theorem C8_classifier_witness :
    (classify_scores 1 0 2 0).1 = spec_classifier_type 1 0 2 0 ∧
    (classify_scores 1 0 2 0).2 = spec_classifier_confidence 1 0 2 0 :=
  ⟨(C8_classifier 1 0 2 0).1, (C8_classifier 1 0 2 0).2.1 (by decide)⟩

end ElaraPA
